import Mathlib

/-!
Shallow embedding of the `VBOSceneModel` scene-model orchestrator of this
repository (file `src/src/viewer/scene/canvas/Canvas.js`, which contains the
`Canvas` class followed by the whole `VBOSceneModel` class).

Modelling conventions:

* JavaScript numbers that only ever hold integral values (ids, counters,
  quantized bytes, array lengths) are `Nat`; signed 32-bit bitwise arithmetic
  is modelled on `Int` with explicit two's-complement conversion.
* Geometric coordinates are modelled as `Int` (the claims under study only
  use comparison, `min`/`max` and addition on them, which agree with the
  IEEE-double behaviour of the source on representable integers).
* JavaScript objects used as string-keyed maps become association lists that
  preserve insertion order, like JS objects do; composite string keys built
  by template interpolation become structure keys with decidable equality.
* Code of this repository that is imported by `Canvas.js` but absent from
  `src/` (the layer classes, `RenderFlags`, node/mesh wrappers, parts of
  `math`, the numeric texture constants) is modelled from the spec; each such
  definition carries a doc comment starting with `Modelled from the spec:`.
* Float-valued visual attributes (color quantization, opacity, modelling
  matrices), edge-index generation and the GPU uploads themselves are not
  tracked beyond an upload counter: no claim under study depends on them.
-/

namespace XeokitVBO

/-! ## JavaScript 32-bit integer helpers -/

/-- JavaScript `ToInt32`: reduce a nonnegative number modulo `2^32` into the
signed two's-complement range `[-2^31, 2^31)`. -/
def toInt32 (n : Nat) : Int :=
  let m : Nat := n % 2 ^ 32
  if m < 2 ^ 31 then (m : Int) else (m : Int) - 2 ^ 32

/-- JavaScript `x >> k` on an int32 value: arithmetic shift right, i.e. floor
division by `2^k` (Lean `Int` division is Euclidean, which coincides with
floor division for a positive divisor). -/
def jsShr (x : Int) (k : Nat) : Int :=
  x / 2 ^ k

/-- JavaScript `x & 0xFF` on an int32 value: the low byte of the
two's-complement representation, i.e. the nonnegative residue mod 256. -/
def jsAnd255 (x : Int) : Int :=
  x % 256

/-- JavaScript `Math.round(n / 3)` for a nonnegative integer `n`. -/
def jsRoundDiv3 (n : Nat) : Nat :=
  (n + 1) / 3

/-- JavaScript `Math.round(n / 2)` for a nonnegative integer `n`
(rounds half up). -/
def jsRoundDiv2 (n : Nat) : Nat :=
  (n + 1) / 2

/-- The quantized pick color computed by `createMesh`
(`Canvas.js` lines 1773-1780):
`a = pickId >> 24 & 0xFF`, `b = pickId >> 16 & 0xFF`,
`g = pickId >> 8 & 0xFF`, `r = pickId & 0xFF`, stored as `[r, g, b, a]`. -/
def mkPickColor (pickId : Nat) : List Int :=
  let x := toInt32 pickId
  let a := jsAnd255 (jsShr x 24)
  let b := jsAnd255 (jsShr x 16)
  let g := jsAnd255 (jsShr x 8)
  let r := jsAnd255 x
  [r, g, b, a]

/-! ## Vectors and axis-aligned bounding boxes -/

/-- A 3D point with integer coordinates (model of a `Float64Array(3)`). -/
structure Vec3 where
  x : Int
  y : Int
  z : Int
deriving DecidableEq, Repr

/-- `math.addVec3`. -/
def addVec3 (a b : Vec3) : Vec3 :=
  ⟨a.x + b.x, a.y + b.y, a.z + b.z⟩

/-- An axis-aligned bounding box, as in `math.AABB3` (6 components). -/
structure AABB where
  xmin : Int
  ymin : Int
  zmin : Int
  xmax : Int
  ymax : Int
  zmax : Int
deriving DecidableEq, Repr

/-- Model of `Number.MAX_VALUE`: an integer bound above every coordinate a
JavaScript double can hold (the numeral is `2 ^ 1024`, written out so that
proofs can evaluate it). -/
def MAXDN : Nat := 179769313486231590772930519078902473361797697894230657273430081157732675805500963132708477322407536021120113879871393357658789768814416622492847430639474124377767893424865485276302219601246094119453082952085005768838150682342462881473913110540827237163350510684586298239947245938479716304835356329624224137216

/-- `MAXDN` as an integer. -/
def MAXD : Int := MAXDN

/-- `math.collapseAABB3()`: the empty box, mins at `+MAX_VALUE` and maxes at
`-MAX_VALUE`, so that the first expansion replaces every component. -/
def collapseAABB3 : AABB :=
  ⟨MAXD, MAXD, MAXD, -MAXD, -MAXD, -MAXD⟩

/-- `math.expandAABB3(a, b)`: componentwise min of mins and max of maxes. -/
def expandAABB3 (a b : AABB) : AABB :=
  ⟨min a.xmin b.xmin, min a.ymin b.ymin, min a.zmin b.zmin,
   max a.xmax b.xmax, max a.ymax b.ymax, max a.zmax b.zmax⟩

/-- Expand a box by every `(x, y, z)` triple of a flat position array. -/
def aabbExpandFlat : AABB → List Int → AABB
  | a, x :: y :: z :: rest => aabbExpandFlat (expandAABB3 a ⟨x, y, z, x, y, z⟩) rest
  | a, _ => a

/-- The AABB of a flat position array. -/
def aabbOfFlat (positions : List Int) : AABB :=
  aabbExpandFlat collapseAABB3 positions

/-- Every component of the box lies strictly inside the collapse sentinels
(true of every finite double, since the sentinel models `MAX_VALUE`). -/
def aabbInRange (a : AABB) : Prop :=
  a.xmin.natAbs < MAXDN ∧ a.ymin.natAbs < MAXDN ∧ a.zmin.natAbs < MAXDN ∧
  a.xmax.natAbs < MAXDN ∧ a.ymax.natAbs < MAXDN ∧ a.zmax.natAbs < MAXDN

instance (a : AABB) : Decidable (aabbInRange a) := by
  unfold aabbInRange; infer_instance

/-! ## Association lists (JavaScript objects used as maps) -/

/-- Lookup in an insertion-ordered association list. -/
def alookup {κ α : Type} [DecidableEq κ] : List (κ × α) → κ → Option α
  | [], _ => none
  | (k2, v) :: rest, k => if k2 = k then some v else alookup rest k

/-- Set a key: overwrite in place when present (JS objects keep the original
insertion position on overwrite), append otherwise. -/
def aset {κ α : Type} [DecidableEq κ] : List (κ × α) → κ → α → List (κ × α)
  | [], k, v => [(k, v)]
  | (k2, v2) :: rest, k, v =>
      if k2 = k then (k, v) :: rest else (k2, v2) :: aset rest k v

/-- Delete a key (JS `delete obj[k]`). -/
def aerase {κ α : Type} [DecidableEq κ] : List (κ × α) → κ → List (κ × α)
  | [], _ => []
  | (k2, v2) :: rest, k =>
      if k2 = k then rest else (k2, v2) :: aerase rest k

/-! ## Texture filter / wrap / encoding constants -/

/-- Modelled from the spec: the numeric texture-option constants come from the
missing `constants/constants.js` module; only their distinctness matters to
the validation logic. Values follow the conventional xeokit numbering. -/
def RepeatWrapping : Nat := 1000

/-- Modelled from the spec: see `RepeatWrapping`. -/
def ClampToEdgeWrapping : Nat := 1001

/-- Modelled from the spec: see `RepeatWrapping`. -/
def MirroredRepeatWrapping : Nat := 1002

/-- Modelled from the spec: see `RepeatWrapping`. -/
def NearestFilter : Nat := 1003

/-- Modelled from the spec: see `RepeatWrapping`. -/
def NearestMipMapNearestFilter : Nat := 1004

/-- Modelled from the spec: see `RepeatWrapping`. -/
def NearestMipMapLinearFilter : Nat := 1005

/-- Modelled from the spec: see `RepeatWrapping`. -/
def LinearFilter : Nat := 1006

/-- Modelled from the spec: see `RepeatWrapping`. -/
def LinearMipMapNearestFilter : Nat := 1007

/-- Modelled from the spec: see `RepeatWrapping`. -/
def LinearMipmapLinearFilter : Nat := 1008

/-- Modelled from the spec: see `RepeatWrapping`. -/
def LinearEncoding : Nat := 3000

/-- Modelled from the spec: see `RepeatWrapping`. -/
def sRGBEncoding : Nat := 3001

/-- The default texture-set id registered by `_createDefaultTextureSet`. -/
def defaultTextureSetId : String := "defaultTextureSet"

/-! ## Registry entry types -/

/-- A stored geometry (`VBOSceneModelGeometry`): the config fields retained by
the registry that later operations read. -/
structure Geometry where
  id : String
  primitive : String
  positions : Option (List Int)
  positionsCompressed : Option (List Int)
  positionsDecodeMatrix : Option (List Int)
  indices : Option (List Nat)
deriving DecidableEq, Repr

/-- The sampling options retained by a texture. -/
structure TexOptions where
  minFilter : Nat
  magFilter : Nat
  wrapS : Nat
  wrapT : Nat
  wrapR : Nat
  encoding : Nat
deriving DecidableEq, Repr

/-- A stored texture (`VBOSceneModelTexture` wrapping a `Texture2D`). -/
structure Texture where
  id : String
  options : TexOptions
deriving DecidableEq, Repr

/-- The kind of a layer in `_layerList`. -/
inductive LayerKind where
  | trianglesBatching
  | linesBatching
  | pointsBatching
  | trianglesInstancing
  | linesInstancing
  | pointsInstancing
deriving DecidableEq, Repr

/-- A layer of the model. Layers are stored once, in `layerList`, and the
`_currentBatchingLayers` / `_instancingLayers` maps refer to them by the
unique `lid`. Occupancy counters model the staged CPU-side arrays of the
missing layer classes; `uploadCount` counts GPU uploads performed by the
layer's `finalize`. -/
structure Layer where
  lid : Nat
  kind : LayerKind
  primitive : String
  origin : Vec3
  positionsDecodeMatrix : Option (List Int)
  uvDecodeMatrix : Option (List Int)
  textureSetId : Option String
  solid : Bool
  autoNormals : Bool
  maxGeometryBatchSize : Option Nat
  posOccupancy : Nat
  idxOccupancy : Nat
  numPortions : Nat
  geomNumIndices : Nat
  finalized : Bool
  uploadCount : Nat
  sortId : Nat
  layerIndex : Nat
deriving DecidableEq, Repr

/-- Modelled from the spec: each layer exposes a sort id used by the model's
`finalize` to group layers needing the same shader contiguously; layers of
the same kind and solidity share it. The source uses strings ordered
lexicographically; only the order structure matters, so `Nat` is used. -/
def layerSortId (kind : LayerKind) (solid : Bool) : Nat :=
  (match kind with
   | .trianglesInstancing => 0
   | .linesInstancing => 1
   | .pointsInstancing => 2
   | .trianglesBatching => 3
   | .linesBatching => 4
   | .pointsBatching => 5) * 2 + (if solid then 1 else 0)

/-- Modelled from the spec: the default `maxGeometryBatchSize` (a vertex
budget) is 50000000 when the constructor config omits it. -/
def defaultMaxGeometryBatchSize : Nat := 50000000

/-- Modelled from the spec: `canCreatePortion(vertexCount, indexCount)` of a
batching layer is true iff the current buffer occupancy plus the requested
counts stay within the configured maximum vertex budget (position entries are
3 floats per vertex, hence the factor 3). -/
def Layer.canCreatePortion (L : Layer) (lenPositions lenIndices : Nat) : Bool :=
  let maxVerts := L.maxGeometryBatchSize.getD defaultMaxGeometryBatchSize
  decide (L.posOccupancy + lenPositions ≤ 3 * maxVerts) &&
    decide (L.idxOccupancy + lenIndices ≤ 3 * maxVerts)

/-- Modelled from the spec: a layer's `finalize` uploads the staged arrays to
GPU buffers once and makes the layer read-only; a second call is a no-op. -/
def Layer.finalize (L : Layer) : Layer :=
  if L.finalized then L
  else { L with finalized := true, uploadCount := L.uploadCount + 1 }

/-- Modelled from the spec: a batching layer's `createPortion` appends the
mesh's vertex and index data to the staged arrays and returns an incrementing
portion id (the id returned is the pre-increment portion count). -/
def Layer.createPortionCounts (L : Layer) (lenPositions lenIndices : Nat) : Layer :=
  { L with
    posOccupancy := L.posOccupancy + lenPositions
    idxOccupancy := L.idxOccupancy + lenIndices
    numPortions := L.numPortions + 1 }

/-- A mesh (`VBOSceneModelMesh`): binds one portion in one layer. -/
structure Mesh where
  id : String
  pickId : Nat
  pickColor : List Int
  parent : Option String
  layerLid : Option Nat
  portionId : Option Nat
  origin : Vec3
  aabb : AABB
  numTriangles : Nat
deriving DecidableEq, Repr

/-- An entity (`VBOSceneModelNode`): a group of meshes with shared flags.
`numPortions` is the number of portions the entity owns (one per mesh). -/
structure Node where
  id : String
  isObject : Bool
  meshIds : List String
  flags : Nat
  aabb : AABB
  numPortions : Nat
  visible : Bool
  finalized : Bool
deriving DecidableEq, Repr

/-- Modelled from the spec: the `ENTITY_FLAGS` bit positions (missing
`ENTITY_FLAGS.js` module); only distinctness of the bits matters. -/
def FLAG_VISIBLE : Nat := 1

/-- Modelled from the spec: see `FLAG_VISIBLE`. -/
def FLAG_PICKABLE : Nat := 2

/-- Modelled from the spec: see `FLAG_VISIBLE`. -/
def FLAG_CULLED : Nat := 4

/-- Modelled from the spec: see `FLAG_VISIBLE`. -/
def FLAG_CLIPPABLE : Nat := 8

/-- Modelled from the spec: see `FLAG_VISIBLE`. -/
def FLAG_COLLIDABLE : Nat := 16

/-- Modelled from the spec: see `FLAG_VISIBLE`. -/
def FLAG_EDGES : Nat := 32

/-- Modelled from the spec: see `FLAG_VISIBLE`. -/
def FLAG_XRAYED : Nat := 64

/-- Modelled from the spec: see `FLAG_VISIBLE`. -/
def FLAG_HIGHLIGHTED : Nat := 128

/-- Modelled from the spec: see `FLAG_VISIBLE`. -/
def FLAG_SELECTED : Nat := 256

/-- The per-frame render flags of the model (`RenderFlags` instance). -/
structure RenderFlags where
  numLayers : Nat
  numVisibleLayers : Nat
  visibleLayers : List Nat
  culled : Bool
  colorOpaque : Bool
  colorTransparent : Bool
  edgesOpaque : Bool
  edgesTransparent : Bool
  xrayedSilhouetteOpaque : Bool
  xrayedSilhouetteTransparent : Bool
  xrayedEdgesOpaque : Bool
  xrayedEdgesTransparent : Bool
  selectedSilhouetteOpaque : Bool
  selectedSilhouetteTransparent : Bool
  selectedEdgesOpaque : Bool
  selectedEdgesTransparent : Bool
  highlightedSilhouetteOpaque : Bool
  highlightedSilhouetteTransparent : Bool
  highlightedEdgesOpaque : Bool
  highlightedEdgesTransparent : Bool
deriving DecidableEq, Repr

/-- Modelled from the spec: `RenderFlags.reset()` (missing `RenderFlags.js`)
returns every field to its default: no layers recorded, nothing culled, no
render pass enabled. -/
def RenderFlags.reset : RenderFlags :=
  ⟨0, 0, [], false, false, false, false, false, false, false, false, false,
   false, false, false, false, false, false, false, false⟩

/-- The state of an emphasis material (`xrayMaterial._state` etc.) read by
`_updateRenderFlags`; the float comparisons `fillAlpha < 1.0` and
`edgeAlpha < 1.0` are modelled as booleans. -/
structure MaterialState where
  fill : Bool
  fillAlphaLt1 : Bool
  edges : Bool
  edgeAlphaLt1 : Bool
deriving DecidableEq, Repr

/-- The slice of the owning `Scene` read by `_updateRenderFlags`. -/
structure SceneEnv where
  xrayMaterial : MaterialState
  highlightMaterial : MaterialState
  selectedMaterial : MaterialState
  edgeMaterialEdges : Bool
deriving DecidableEq, Repr

/-- Key of `_instancingLayers`: the source builds the string
`origin[0].origin[1].origin[2].textureSetId.geometryId`; modelled as a
structure key (componentwise equality, which the dotted string realises). -/
structure InstKey where
  origin : Vec3
  textureSetId : String
  geometryId : String
deriving DecidableEq, Repr

/-- Key of `_currentBatchingLayers`: the source builds the template string
`primitive-hasNormals-hasNormalsCompressed-hasColors-hasColorsCompressed-hasUV-hasUVCompressed`;
modelled as a structure key. -/
structure PrimKey where
  primitive : String
  hasNormals : Bool
  hasNormalsCompressed : Bool
  hasColors : Bool
  hasColorsCompressed : Bool
  hasUV : Bool
  hasUVCompressed : Bool
deriving DecidableEq, Repr

/-- The full model state of a `VBOSceneModel`. -/
structure ModelState where
  origin : Vec3
  aabb : AABB
  geometries : List (String × Geometry)
  textures : List (String × Texture)
  textureSets : List String
  meshes : List (String × Mesh)
  nodes : List (String × Node)
  nodeList : List String
  layerList : List Layer
  instancingLayers : List (InstKey × Nat)
  currentBatchingLayers : List (PrimKey × Nat)
  lastOrigin : Option Vec3
  lastPositionsDecodeMatrix : Option (List Int)
  lastUVDecodeMatrix : Option (List Int)
  lastTextureSetId : Option String
  lastNormals : Option Bool
  maxGeometryBatchSize : Option Nat
  numGeometries : Nat
  numTriangles : Nat
  numLines : Nat
  numPoints : Nat
  numEntities : Nat
  numPortions : Nat
  numVisibleLayerPortions : Nat
  numTransparentLayerPortions : Nat
  numXRayedLayerPortions : Nat
  numHighlightedLayerPortions : Nat
  numSelectedLayerPortions : Nat
  numEdgesLayerPortions : Nat
  numPickableLayerPortions : Nat
  numClippableLayerPortions : Nat
  numCulledLayerPortions : Nat
  visibleFlag : Bool
  culledFlag : Bool
  pickableFlag : Bool
  clippableFlag : Bool
  collidableFlag : Bool
  xrayedFlag : Bool
  highlightedFlag : Bool
  selectedFlag : Bool
  edgesFlag : Bool
  renderFlags : RenderFlags
  nextPickId : Nat
  nextLid : Nat
  freshCounter : Nat
  sceneComponents : List String
  sceneAabbDirty : Bool
  destroyed : Bool
  errors : List String
deriving DecidableEq, Repr

/-- `this.error(...)`: append to the error log; the operation then returns
without further effect. -/
def logError (s : ModelState) (msg : String) : ModelState :=
  { s with errors := s.errors ++ [msg] }

/-- The model state right after the constructor ran with an empty config:
empty registries except for the five default textures and the default
texture set, all counters zero, all boolean flags at their constructor
defaults. -/
def initialModel : ModelState where
  origin := ⟨0, 0, 0⟩
  aabb := collapseAABB3
  geometries := []
  textures :=
    [("defaultColorTexture", ⟨"defaultColorTexture", ⟨LinearMipmapLinearFilter, LinearFilter, RepeatWrapping, RepeatWrapping, RepeatWrapping, LinearEncoding⟩⟩),
     ("defaultMetalRoughTexture", ⟨"defaultMetalRoughTexture", ⟨LinearMipmapLinearFilter, LinearFilter, RepeatWrapping, RepeatWrapping, RepeatWrapping, LinearEncoding⟩⟩),
     ("defaultNormalsTexture", ⟨"defaultNormalsTexture", ⟨LinearMipmapLinearFilter, LinearFilter, RepeatWrapping, RepeatWrapping, RepeatWrapping, LinearEncoding⟩⟩),
     ("defaultEmissiveTexture", ⟨"defaultEmissiveTexture", ⟨LinearMipmapLinearFilter, LinearFilter, RepeatWrapping, RepeatWrapping, RepeatWrapping, LinearEncoding⟩⟩),
     ("defaultOcclusionTexture", ⟨"defaultOcclusionTexture", ⟨LinearMipmapLinearFilter, LinearFilter, RepeatWrapping, RepeatWrapping, RepeatWrapping, LinearEncoding⟩⟩)]
  textureSets := [defaultTextureSetId]
  meshes := []
  nodes := []
  nodeList := []
  layerList := []
  instancingLayers := []
  currentBatchingLayers := []
  lastOrigin := none
  lastPositionsDecodeMatrix := none
  lastUVDecodeMatrix := none
  lastTextureSetId := none
  lastNormals := none
  maxGeometryBatchSize := none
  numGeometries := 0
  numTriangles := 0
  numLines := 0
  numPoints := 0
  numEntities := 0
  numPortions := 0
  numVisibleLayerPortions := 0
  numTransparentLayerPortions := 0
  numXRayedLayerPortions := 0
  numHighlightedLayerPortions := 0
  numSelectedLayerPortions := 0
  numEdgesLayerPortions := 0
  numPickableLayerPortions := 0
  numClippableLayerPortions := 0
  numCulledLayerPortions := 0
  visibleFlag := true
  culledFlag := false
  pickableFlag := true
  clippableFlag := true
  collidableFlag := true
  xrayedFlag := false
  highlightedFlag := false
  selectedFlag := false
  edgesFlag := false
  renderFlags := RenderFlags.reset
  nextPickId := 0
  nextLid := 0
  freshCounter := 0
  sceneComponents := []
  sceneAabbDirty := false
  destroyed := false
  errors := []

/-! ## createGeometry -/

/-- Config accepted by `createGeometry` (the fields the source reads). -/
structure GeometryCfg where
  id : Option String := none
  primitive : Option String := none
  positions : Option (List Int) := none
  positionsCompressed : Option (List Int) := none
  positionsDecodeMatrix : Option (List Int) := none
  uvCompressed : Option (List Int) := none
  uvDecodeMatrix : Option (List Int) := none
  indices : Option (List Nat) := none
deriving DecidableEq, Repr

/-- `VBOSceneModel#createGeometry` (`Canvas.js` lines 1456-1495): validation
chain with logged-error early returns, then registration, triangle-count
update (`Math.round(indices.length / 3)`) and `numGeometries` increment. -/
def createGeometry (s : ModelState) (cfg : GeometryCfg) : ModelState :=
  match cfg.id with
  | none => logError s "Config missing: id"
  | some geometryId =>
    if (alookup s.geometries geometryId).isSome then
      logError s "Geometry already created"
    else
      match cfg.primitive with
      | none => logError s "Param expected: primitive"
      | some primitive =>
        if primitive ≠ "points" ∧ primitive ≠ "lines" ∧ primitive ≠ "triangles" ∧
            primitive ≠ "solid" ∧ primitive ≠ "surface" then
          logError s "Unsupported value for primitive"
        else if cfg.positions.isNone ∧ cfg.positionsCompressed.isNone then
          logError s "Param expected: positions or positionsCompressed"
        else if cfg.positionsCompressed.isSome ∧ cfg.positionsDecodeMatrix.isNone then
          logError s "Param expected: positionsDecodeMatrix"
        else if cfg.uvCompressed.isSome ∧ cfg.uvDecodeMatrix.isNone then
          logError s "Param expected: uvDecodeMatrix"
        else if cfg.indices.isNone ∧ primitive ≠ "points" then
          logError s "Param expected: indices"
        else
          let geometry : Geometry :=
            ⟨geometryId, primitive, cfg.positions, cfg.positionsCompressed,
             cfg.positionsDecodeMatrix, cfg.indices⟩
          { s with
            geometries := aset s.geometries geometryId geometry
            numTriangles := s.numTriangles +
              (match cfg.indices with
               | some l => jsRoundDiv3 l.length
               | none => 0)
            numGeometries := s.numGeometries + 1 }

/-! ## createTexture -/

/-- Config accepted by `createTexture` (the fields the source reads; the
image payload itself is reduced to presence booleans). -/
structure TextureCfg where
  id : Option String := none
  src : Bool := false
  image : Bool := false
  buffers : Bool := false
  minFilter : Option Nat := none
  magFilter : Option Nat := none
  wrapS : Option Nat := none
  wrapT : Option Nat := none
  wrapR : Option Nat := none
  encoding : Option Nat := none
deriving DecidableEq, Repr

/-- One option-validation block of `createTexture` (each of the six blocks at
`Canvas.js` lines 1531-1566 has this exact shape): take the configured value
or the default, and if it is not among the supported constants, log an error
and fall back to the default (which for every block coincides with the
or-default). -/
def validateOption (s : ModelState) (given : Option Nat) (dflt : Nat)
    (supported : List Nat) (msg : String) : ModelState × Nat :=
  let v := given.getD dflt
  if v ∈ supported then (s, v) else (logError s msg, dflt)

/-- `VBOSceneModel#createTexture` (`Canvas.js` lines 1517-1603): id and
image-source validation abort with a logged error; unsupported option values
log an error and fall back to the documented default without aborting; the
texture is then registered under its id. The asynchronous image load only
touches GPU state and is not modelled. -/
def createTexture (s : ModelState) (cfg : TextureCfg) : ModelState :=
  match cfg.id with
  | none => logError s "Config missing: id"
  | some textureId =>
    if (alookup s.textures textureId).isSome then
      logError s "Texture already created"
    else if ¬ cfg.src ∧ ¬ cfg.image ∧ ¬ cfg.buffers then
      logError s "Param expected: src, image or buffers"
    else
      let r1 := validateOption s cfg.minFilter LinearMipmapLinearFilter
        [LinearFilter, LinearMipMapNearestFilter, LinearMipmapLinearFilter,
         NearestMipMapLinearFilter, NearestMipMapNearestFilter]
        "Unsupported value for minFilter"
      let r2 := validateOption r1.1 cfg.magFilter LinearFilter
        [LinearFilter, NearestFilter] "Unsupported value for magFilter"
      let r3 := validateOption r2.1 cfg.wrapS RepeatWrapping
        [ClampToEdgeWrapping, MirroredRepeatWrapping, RepeatWrapping]
        "Unsupported value for wrapS"
      let r4 := validateOption r3.1 cfg.wrapT RepeatWrapping
        [ClampToEdgeWrapping, MirroredRepeatWrapping, RepeatWrapping]
        "Unsupported value for wrapT"
      let r5 := validateOption r4.1 cfg.wrapR RepeatWrapping
        [ClampToEdgeWrapping, MirroredRepeatWrapping, RepeatWrapping]
        "Unsupported value for wrapR"
      let r6 := validateOption r5.1 cfg.encoding LinearEncoding
        [LinearEncoding, sRGBEncoding] "Unsupported value for encoding"
      { r6.1 with
        textures := aset r6.1.textures textureId
          ⟨textureId, ⟨r1.2, r2.2, r3.2, r4.2, r5.2, r6.2⟩⟩ }

/-! ## createMesh -/

/-- Config accepted by `createMesh` (the fields the source reads that the
claims under study depend on; float visual attributes and modelling-matrix
parameters are not tracked). -/
structure MeshCfg where
  id : Option String := none
  geometryId : Option String := none
  textureSetId : Option String := none
  primitive : Option String := none
  positions : Option (List Int) := none
  positionsCompressed : Option (List Int) := none
  positionsDecodeMatrix : Option (List Int) := none
  uvDecodeMatrix : Option (List Int) := none
  normals : Option (List Int) := none
  normalsCompressed : Option (List Int) := none
  colors : Option (List Int) := none
  colorsCompressed : Option (List Int) := none
  uv : Option (List Int) := none
  uvCompressed : Option (List Int) := none
  indices : Option (List Nat) := none
  edgeIndices : Option (List Nat) := none
  origin : Option Vec3 := none
  rtcCenter : Option Vec3 := none
deriving DecidableEq, Repr

/-- JS truthiness of an optional array combined with a length test, as in
`!!cfg.normals && cfg.normals.length > 0`. -/
def nonEmptyOpt (o : Option (List Int)) : Bool :=
  match o with
  | some l => decide (0 < l.length)
  | none => false

/-- The composite batching-layer key built by `createMesh`
(`Canvas.js` lines 1957-1960). -/
def primKeyOf (primitive : String) (cfg : MeshCfg) : PrimKey :=
  ⟨primitive, nonEmptyOpt cfg.normals, nonEmptyOpt cfg.normalsCompressed,
   nonEmptyOpt cfg.colors, nonEmptyOpt cfg.colorsCompressed,
   nonEmptyOpt cfg.uv, nonEmptyOpt cfg.uvCompressed⟩

/-- Modelled from the spec: the threshold above which raw world coordinates
are considered too large for single-precision accuracy and re-centred (the
RTC auto-promotion step of `createMesh`). -/
def rtcThreshold : Nat := 10000000

/-- Subtract a centre from every `(x, y, z)` triple of a flat position
array. -/
def recentreFlat (c : Vec3) : List Int → List Int
  | x :: y :: z :: rest => (x - c.x) :: (y - c.y) :: (z - c.z) :: recentreFlat c rest
  | rest => rest

/-- Modelled from the spec: `worldToRTCPositions` (missing `math/rtcCoords.js`)
re-centres raw world-space positions around the centre of their AABB when the
coordinates are too large for single-precision accuracy; returns the
(possibly re-centred) positions, the centre used, and whether re-centering
was needed. -/
def worldToRTCPositions (positions : List Int) : List Int × Vec3 × Bool :=
  let aabb := aabbOfFlat positions
  let c : Vec3 := ⟨(aabb.xmin + aabb.xmax) / 2, (aabb.ymin + aabb.ymax) / 2,
                   (aabb.zmin + aabb.zmax) / 2⟩
  let needed := decide (rtcThreshold ≤ c.x.natAbs) || decide (rtcThreshold ≤ c.y.natAbs) ||
    decide (rtcThreshold ≤ c.z.natAbs)
  if needed then (recentreFlat c positions, c, true) else (positions, ⟨0, 0, 0⟩, false)

/-- The effective origin and (possibly RTC-re-centred) raw positions used by
the batching path of `createMesh` (`Canvas.js` lines 1864-1875): the config
origin (or `rtcCenter`) is added to the model origin, then raw positions may
fold a further auto-computed RTC centre into it. -/
def batchingOriginPositions (s : ModelState) (cfg : MeshCfg) :
    Vec3 × Option (List Int) :=
  let cfgOrigin : Option Vec3 :=
    match cfg.origin with
    | some o => some o
    | none => cfg.rtcCenter
  let origin0 :=
    match cfgOrigin with
    | some o => addVec3 s.origin o
    | none => s.origin
  match cfg.positions with
  | some ps =>
    let r := worldToRTCPositions ps
    if r.2.2 then (addVec3 origin0 r.2.1, some r.1) else (origin0, some ps)
  | none => (origin0, none)

/-- Look up a layer by its unique id. -/
def layerAt (s : ModelState) (lid : Nat) : Option Layer :=
  s.layerList.find? (fun L => L.lid = lid)

/-- Replace the layer with the given id in the layer list. -/
def setLayerList (l : List Layer) (lid : Nat) (L2 : Layer) : List Layer :=
  l.map (fun L => if L.lid = lid then L2 else L)

/-- Finalize every current batching layer and clear the map, as done by
`createMesh` when a new batching layer generation is required
(`Canvas.js` lines 1918-1925 and 1929-1936). -/
def flushCurrentBatchingLayers (s : ModelState) : ModelState :=
  let lids := s.currentBatchingLayers.map (fun p => p.2)
  { s with
    layerList := s.layerList.map (fun L => if lids.contains L.lid then L.finalize else L)
    currentBatchingLayers := [] }

/-- Append a fresh batching layer for the given key and make it current
(`Canvas.js` lines 1977-1992 and the analogous lines/points cases). -/
def newBatchingLayer (s : ModelState) (key : PrimKey) (mk : Nat → Layer) :
    ModelState × Nat :=
  let lid := s.nextLid
  ({ s with
     layerList := s.layerList ++ [mk lid]
     currentBatchingLayers := aset s.currentBatchingLayers key lid
     nextLid := lid + 1 }, lid)

/-- The layer-routing step of the batching path of `createMesh`
(`Canvas.js` lines 1962-1992): reuse the current layer for the key unless its
budget would be exceeded, in which case it is finalized, dropped from the
current map, and a fresh layer is started. -/
def routeBatchingLayer (s : ModelState) (key : PrimKey)
    (lenPositions lenIndices : Nat) (mk : Nat → Layer) : ModelState × Nat :=
  match alookup s.currentBatchingLayers key with
  | some lid =>
    match layerAt s lid with
    | some L =>
      if L.canCreatePortion lenPositions lenIndices then (s, lid)
      else
        let s2 := { s with
          layerList := setLayerList s.layerList lid L.finalize
          currentBatchingLayers := aerase s.currentBatchingLayers key }
        newBatchingLayer s2 key mk
    | none => newBatchingLayer s key mk
  | none => newBatchingLayer s key mk

/-- Modelled from the spec: the world AABB a layer's `createPortion` computes
for the portion; the float matrix math of the missing layer classes is not
reproduced, the box of the supplied (or compressed) positions stands in.
No claim under study depends on this value for meshes it quantifies over. -/
def portionAABB (posOpt : Option (List Int)) (cfg : MeshCfg) : AABB :=
  aabbOfFlat (posOpt.getD (cfg.positionsCompressed.getD []))

/-- The origin check of the new-batching-layer-generation logic
(`Canvas.js` lines 1879-1887): a new generation is needed when there is no
previous origin or the origin changed (`math.compareVec3`). -/
def needNewForOrigin (lastOrigin : Option Vec3) (origin : Vec3) : Bool :=
  match lastOrigin with
  | none => true
  | some lo => decide (lo ≠ origin)

/-- The decode-matrix checks of the new-batching-layer-generation logic
(`Canvas.js` lines 1888-1911): only performed when the config supplies the
matrix; a new generation is needed when there was no previous matrix or it
changed (`math.compareMat4`). -/
def needNewForMatrix (last : Option (List Int)) (given : Option (List Int)) : Bool :=
  match given with
  | none => false
  | some m =>
    match last with
    | none => true
    | some lm => decide (lm ≠ m)

/-- The texture-set check of the new-batching-layer-generation logic
(`Canvas.js` lines 1912-1917): only performed when the config supplies a
texture-set id. -/
def needNewForTextureSet (last : Option String) (given : Option String) : Bool :=
  match given with
  | none => false
  | some t => decide (last ≠ some t)

/-- The `_last*` bookkeeping performed alongside the checks: a supplied value
replaces the remembered one, an absent value leaves it unchanged. -/
def updatedLast {α : Type} (last given : Option α) : Option α :=
  match given with
  | some m => some m
  | none => last

/-- The normals-presence flush test for triangle-family primitives
(`Canvas.js` line 1929): flush when a previous value exists and the presence
of supplied normals changed. -/
def normalsFlushNeeded (lastNormals : Option Bool) (normalsProvided : Bool) : Bool :=
  match lastNormals with
  | some b => b != normalsProvided
  | none => false

/-- The batching branch of `createMesh` (`Canvas.js` lines 1827-2104):
primitive defaulting and validation, RTC origin handling, the
new-batching-layer-generation checks against the `_last*` state, the
normals-presence flush for triangle-family primitives, layer routing with
the vertex/index budget, portion creation and counter updates. `pickId` was
already allocated by the caller. -/
def createMeshBatching (s : ModelState) (cfg : MeshCfg) (id : String)
    (pickId : Nat) : ModelState :=
  let primitive := cfg.primitive.getD "triangles"
  if primitive ≠ "points" ∧ primitive ≠ "lines" ∧ primitive ≠ "triangles" ∧
      primitive ≠ "solid" ∧ primitive ≠ "surface" then
    logError s "Unsupported value for primitive"
  else if cfg.positions.isNone ∧ cfg.positionsCompressed.isNone then
    logError s "Param expected: positions or positionsCompressed"
  else if cfg.positions.isSome ∧ cfg.positionsCompressed.isSome then
    logError s "Only one param expected: positions or positionsCompressed"
  else if cfg.positionsCompressed.isSome ∧ cfg.positionsDecodeMatrix.isNone then
    logError s "Param expected: positionsDecodeMatrix"
  else if cfg.uvCompressed.isSome ∧ cfg.uvDecodeMatrix.isNone then
    logError s "Param expected: uvDecodeMatrix"
  else if cfg.indices.isNone ∧ primitive ≠ "points" then
    logError s "Param expected: indices"
  else
    let indices := cfg.indices.getD []
    let op := batchingOriginPositions s cfg
    let origin := op.1
    let posOpt := op.2
    let needNew1 := needNewForOrigin s.lastOrigin origin
    let needNew2 := needNewForMatrix s.lastPositionsDecodeMatrix cfg.positionsDecodeMatrix
    let needNew3 := needNewForMatrix s.lastUVDecodeMatrix cfg.uvDecodeMatrix
    let needNew4 := needNewForTextureSet s.lastTextureSetId cfg.textureSetId
    let s := { s with
      lastOrigin := some origin
      lastPositionsDecodeMatrix :=
        updatedLast s.lastPositionsDecodeMatrix cfg.positionsDecodeMatrix
      lastUVDecodeMatrix := updatedLast s.lastUVDecodeMatrix cfg.uvDecodeMatrix
      lastTextureSetId := updatedLast s.lastTextureSetId cfg.textureSetId }
    let s := if needNew1 || needNew2 || needNew3 || needNew4 then
      flushCurrentBatchingLayers s else s
    let normalsProvided := nonEmptyOpt cfg.normals
    let triangleFamily :=
      primitive = "triangles" ∨ primitive = "solid" ∨ primitive = "surface"
    let s :=
      if triangleFamily then
        let s :=
          if normalsFlushNeeded s.lastNormals normalsProvided then
            flushCurrentBatchingLayers s
          else s
        { s with lastNormals := some normalsProvided }
      else s
    let key := primKeyOf primitive cfg
    let lenPositions := (posOpt.getD (cfg.positionsCompressed.getD [])).length
    let lenIndices := indices.length
    let mk : Nat → Layer := fun lid =>
      { lid := lid
        kind :=
          if triangleFamily then .trianglesBatching
          else if primitive = "lines" then .linesBatching
          else .pointsBatching
        primitive := primitive
        origin := origin
        positionsDecodeMatrix := cfg.positionsDecodeMatrix
        uvDecodeMatrix := cfg.uvDecodeMatrix
        textureSetId :=
          if triangleFamily then some (cfg.textureSetId.getD defaultTextureSetId)
          else none
        solid := primitive = "solid"
        autoNormals := triangleFamily ∧ ¬ normalsProvided
        maxGeometryBatchSize := s.maxGeometryBatchSize
        posOccupancy := 0
        idxOccupancy := 0
        numPortions := 0
        geomNumIndices := 0
        finalized := false
        uploadCount := 0
        sortId :=
          layerSortId
            (if triangleFamily then .trianglesBatching
             else if primitive = "lines" then .linesBatching
             else .pointsBatching)
            (primitive = "solid")
        layerIndex := 0 }
    let rl := routeBatchingLayer s key lenPositions (if primitive = "points" then 0 else lenIndices) mk
    let s := rl.1
    let lid := rl.2
    match layerAt s lid with
    | none => s
    | some L =>
      let portionId := L.numPortions
      let newLayers := setLayerList s.layerList lid (L.createPortionCounts lenPositions lenIndices)
      let s := { s with layerList := newLayers }
      let aabb := portionAABB posOpt cfg
      let meshNumTriangles := if triangleFamily then jsRoundDiv3 lenIndices else 0
      let s :=
        if triangleFamily then
          { s with numTriangles := s.numTriangles + jsRoundDiv3 lenIndices }
        else if primitive = "lines" then
          { s with numLines := s.numLines + jsRoundDiv2 lenIndices }
        else
          { s with numPoints := s.numPoints + jsRoundDiv3 lenPositions }
      let mesh : Mesh :=
        { id := id, pickId := pickId, pickColor := mkPickColor pickId,
          parent := none, layerLid := some lid, portionId := some portionId,
          origin := origin, aabb := aabb, numTriangles := meshNumTriangles }
      { s with
        aabb := expandAABB3 s.aabb aabb
        numGeometries := s.numGeometries + 1
        numPortions := s.numPortions + 1
        meshes := aset s.meshes id mesh }

/-- `VBOSceneModel#_getInstancingLayer` (`Canvas.js` lines 2106-2178): look
the layer up under the `(origin, textureSetId, geometryId)` key, else create
one for the geometry's primitive, register and append it. Returns `none` on
the logged-error paths (unknown texture set or geometry), which the caller
has already ruled out. -/
def getInstancingLayer (s : ModelState) (origin : Vec3) (textureSetId : String)
    (geometryId : String) : Option (ModelState × Nat) :=
  let key : InstKey := ⟨origin, textureSetId, geometryId⟩
  match alookup s.instancingLayers key with
  | some lid => some (s, lid)
  | none =>
    if ¬ s.textureSets.contains textureSetId then none
    else
      match alookup s.geometries geometryId with
      | none => none
      | some geometry =>
        let kind : LayerKind :=
          if geometry.primitive = "lines" then .linesInstancing
          else if geometry.primitive = "points" then .pointsInstancing
          else .trianglesInstancing
        let lid := s.nextLid
        let L : Layer :=
          { lid := lid, kind := kind, primitive := geometry.primitive,
            origin := origin,
            positionsDecodeMatrix := geometry.positionsDecodeMatrix,
            uvDecodeMatrix := none,
            textureSetId := some textureSetId,
            solid := geometry.primitive = "solid",
            autoNormals := false,
            maxGeometryBatchSize := none,
            posOccupancy := 0, idxOccupancy := 0, numPortions := 0,
            geomNumIndices := (geometry.indices.getD []).length,
            finalized := false, uploadCount := 0,
            sortId := layerSortId kind (geometry.primitive = "solid"),
            layerIndex := 0 }
        some ({ s with
          instancingLayers := aset s.instancingLayers key lid
          layerList := s.layerList ++ [L]
          nextLid := lid + 1 }, lid)

/-- The instancing branch of `createMesh` (`Canvas.js` lines 1786-1826):
resolve the effective origin, fetch or create the instancing layer, create a
portion on it (modelled as a counter increment, per the spec the instancing
`createPortion` appends one instance record), and account the geometry's
triangles to the mesh and the model. -/
def createMeshInstancing (s : ModelState) (cfg : MeshCfg) (id : String)
    (geometryId textureSetId : String) (pickId : Nat) : ModelState :=
  let cfgOrigin : Option Vec3 :=
    match cfg.origin with
    | some o => some o
    | none => cfg.rtcCenter
  let origin :=
    match cfgOrigin with
    | some o => addVec3 s.origin o
    | none => s.origin
  match getInstancingLayer s origin textureSetId geometryId with
  | none => s
  | some (s1, lid) =>
    match layerAt s1 lid with
    | none => s1
    | some L =>
      let portionId := L.numPortions
      let geometry := alookup s1.geometries geometryId
      let aabb := aabbOfFlat
        ((geometry.bind (fun g => g.positions)).getD
          ((geometry.bind (fun g => g.positionsCompressed)).getD []))
      let newLayers := setLayerList s1.layerList lid { L with numPortions := L.numPortions + 1 }
      let s2 := { s1 with layerList := newLayers }
      let numTriangles := jsRoundDiv3 L.geomNumIndices
      let mesh : Mesh :=
        { id := id, pickId := pickId, pickColor := mkPickColor pickId,
          parent := none, layerLid := some lid, portionId := some portionId,
          origin := origin, aabb := aabb, numTriangles := numTriangles }
      { s2 with
        aabb := expandAABB3 s2.aabb aabb
        numTriangles := s2.numTriangles + numTriangles
        numPortions := s2.numPortions + 1
        meshes := aset s2.meshes id mesh }

/-- `VBOSceneModel#createMesh` (`Canvas.js` lines 1736-2104): id validation,
geometry/texture-set resolution, pick-id allocation and pick-color
quantization, then the instancing or batching route. The pick id is consumed
at mesh-object construction, before the batching-route validation, as in the
source. -/
def createMesh (s : ModelState) (cfg : MeshCfg) : ModelState :=
  match cfg.id with
  | none => logError s "Config missing: id"
  | some id =>
    if (alookup s.meshes id).isSome then
      logError s "VBOSceneModel already has a mesh with this ID"
    else if cfg.geometryId.isSome ∧ (cfg.geometryId.bind (alookup s.geometries)).isNone then
      logError s "Geometry not found"
    else
      let textureSetId := cfg.textureSetId.getD defaultTextureSetId
      if ¬ s.textureSets.contains textureSetId then
        logError s "Texture set not found"
      else
        let pickId := s.nextPickId
        let s := { s with nextPickId := s.nextPickId + 1 }
        match cfg.geometryId with
        | some geometryId => createMeshInstancing s cfg id geometryId textureSetId pickId
        | none => createMeshBatching s cfg id pickId

/-! ## createEntity -/

/-- Config accepted by `createEntity` (the fields the source reads); an
`Option Bool` flag models the JS `cfg.flag !== false` test (absent means
true). -/
structure EntityCfg where
  id : Option String := none
  meshIds : Option (List String) := none
  isObject : Bool := false
  visible : Option Bool := none
  pickable : Option Bool := none
  culled : Option Bool := none
  clippable : Option Bool := none
  collidable : Option Bool := none
  edges : Option Bool := none
  xrayed : Option Bool := none
  highlighted : Option Bool := none
  selected : Option Bool := none
deriving DecidableEq, Repr

/-- `math.createUUID()`, modelled deterministically from a fresh counter. -/
def freshId (s : ModelState) : String × ModelState :=
  ("uuid-" ++ toString s.freshCounter, { s with freshCounter := s.freshCounter + 1 })

/-- One iteration of the mesh-collection loop of `createEntity`
(`Canvas.js` lines 2219-2231): an unknown id, or a mesh already claimed by
another entity, is skipped with a logged error; otherwise the mesh id is
collected. -/
def collectStep (acc : ModelState × List String) (meshId : String) :
    ModelState × List String :=
  match alookup acc.1.meshes meshId with
  | none => (logError acc.1 "Mesh with this ID not found - ignoring this mesh", acc.2)
  | some mesh =>
    if mesh.parent.isSome then
      (logError acc.1 "Mesh already belongs to an object - ignoring this mesh", acc.2)
    else (acc.1, acc.2 ++ [meshId])

/-- The mesh-collection loop of `createEntity` (`Canvas.js` lines 2218-2231):
bad references are skipped rather than aborting the call. Returns the state
with the logged errors and the ids of the collected meshes. -/
def collectMeshes (s : ModelState) (meshIds : List String) : ModelState × List String :=
  meshIds.foldl collectStep (s, [])

/-- The entity flag word built by `createEntity` (`Canvas.js` lines
2233-2260): each flag is set when the model-level flag is on and the config
does not explicitly pass `false`. -/
def entityFlags (s : ModelState) (cfg : EntityCfg) : Nat :=
  (if s.visibleFlag ∧ cfg.visible ≠ some false then FLAG_VISIBLE else 0) +
  (if s.pickableFlag ∧ cfg.pickable ≠ some false then FLAG_PICKABLE else 0) +
  (if s.culledFlag ∧ cfg.culled ≠ some false then FLAG_CULLED else 0) +
  (if s.clippableFlag ∧ cfg.clippable ≠ some false then FLAG_CLIPPABLE else 0) +
  (if s.collidableFlag ∧ cfg.collidable ≠ some false then FLAG_COLLIDABLE else 0) +
  (if s.edgesFlag ∧ cfg.edges ≠ some false then FLAG_EDGES else 0) +
  (if s.xrayedFlag ∧ cfg.xrayed ≠ some false then FLAG_XRAYED else 0) +
  (if s.highlightedFlag ∧ cfg.highlighted ≠ some false then FLAG_HIGHLIGHTED else 0) +
  (if s.selectedFlag ∧ cfg.selected ≠ some false then FLAG_SELECTED else 0)

/-- The entity AABB computed by `createEntity` (`Canvas.js` lines 2262-2270):
the single mesh's box is reused directly when there is exactly one mesh,
otherwise the boxes are unioned into a fresh collapsed box. -/
def entityAABB (s : ModelState) (meshIds : List String) : AABB :=
  if meshIds.length = 1 then
    match alookup s.meshes (meshIds.headD "") with
    | some m => m.aabb
    | none => collapseAABB3
  else
    meshIds.foldl
      (fun box meshId =>
        match alookup s.meshes meshId with
        | some m => expandAABB3 box m.aabb
        | none => box)
      collapseAABB3

/-- Modelled from the spec: the aggregate render-flag counters are maintained
incrementally as entities are created and toggled, never by re-scanning;
creating an entity accounts its portions (one per mesh) to each counter
whose flag the entity carries. -/
def addEntityCounters (s : ModelState) (flags nPort : Nat) : ModelState :=
  { s with
    numVisibleLayerPortions := s.numVisibleLayerPortions +
      (if flags.land FLAG_VISIBLE ≠ 0 then nPort else 0)
    numPickableLayerPortions := s.numPickableLayerPortions +
      (if flags.land FLAG_PICKABLE ≠ 0 then nPort else 0)
    numCulledLayerPortions := s.numCulledLayerPortions +
      (if flags.land FLAG_CULLED ≠ 0 then nPort else 0)
    numClippableLayerPortions := s.numClippableLayerPortions +
      (if flags.land FLAG_CLIPPABLE ≠ 0 then nPort else 0)
    numEdgesLayerPortions := s.numEdgesLayerPortions +
      (if flags.land FLAG_EDGES ≠ 0 then nPort else 0)
    numXRayedLayerPortions := s.numXRayedLayerPortions +
      (if flags.land FLAG_XRAYED ≠ 0 then nPort else 0)
    numHighlightedLayerPortions := s.numHighlightedLayerPortions +
      (if flags.land FLAG_HIGHLIGHTED ≠ 0 then nPort else 0)
    numSelectedLayerPortions := s.numSelectedLayerPortions +
      (if flags.land FLAG_SELECTED ≠ 0 then nPort else 0) }

/-- `VBOSceneModel#createEntity` (`Canvas.js` lines 2203-2276): id resolution
(fresh UUID when absent or colliding), mesh collection with skip-on-error,
flag word and AABB computation, node construction (which claims each
collected mesh by setting its `parent`), registration and counter updates.
Returns the updated state and the created node, `none` when `meshIds` was
missing. -/
def createEntity (s : ModelState) (cfg : EntityCfg) : ModelState × Option Node :=
  let idn :=
    match cfg.id with
    | none => freshId s
    | some i =>
      if s.sceneComponents.contains i then
        freshId (logError s "Scene already has a Component with this ID - will assign random ID")
      else (i, s)
  let id := idn.1
  let s := idn.2
  match cfg.meshIds with
  | none => (logError s "Config missing: meshIds", none)
  | some meshIds =>
    let cm := collectMeshes s meshIds
    let s := cm.1
    let collected := cm.2
    let flags := entityFlags s cfg
    let aabb := entityAABB s collected
    let node : Node :=
      { id := id, isObject := cfg.isObject, meshIds := collected, flags := flags,
        aabb := aabb, numPortions := collected.length,
        visible := flags.land FLAG_VISIBLE ≠ 0, finalized := false }
    let s := { s with
      meshes := s.meshes.map (fun p =>
        (p.1, if collected.contains p.1 then { p.2 with parent := some id } else p.2)) }
    let s := addEntityCounters s flags collected.length
    ({ s with
       nodes := aset s.nodes id node
       nodeList := s.nodeList ++ [id]
       sceneComponents := s.sceneComponents ++ [id]
       numEntities := s.numEntities + 1 }, some node)

/-! ## finalize -/

/-- The relation by which `finalize` sorts the layer list (the source
comparator orders by `sortId`; the JS sort is stable, as is the insertion
sort used here). -/
def layerLE (a b : Layer) : Prop :=
  a.sortId ≤ b.sortId

instance : DecidableRel layerLE := fun a b => by
  unfold layerLE; infer_instance

/-- The loop at `Canvas.js` lines 2326-2329, carrying the running index:
reassign each layer's `layerIndex` to its position in the (sorted) list. -/
def reindexLayersFrom (i : Nat) : List Layer → List Layer
  | [] => []
  | L :: rest => { L with layerIndex := i } :: reindexLayersFrom (i + 1) rest

/-- Reassign each layer's `layerIndex` to its position in the (sorted) list
(`Canvas.js` lines 2326-2329). -/
def reindexLayers (l : List Layer) : List Layer :=
  reindexLayersFrom 0 l

/-- `VBOSceneModel#finalize` (`Canvas.js` lines 2285-2334): no-op when
destroyed; finalizes every instancing layer and every current batching layer
and clears the current-batching map; runs the two node-finalize passes
(modelled as marking nodes finalized — the missing node class recomputes
per-entity aggregate state, deterministic in the model state); sorts the
layer list by sort id and reassigns layer indices; marks the scene AABB
dirty. No finalized flag is recorded on the model itself. -/
def finalize (s : ModelState) : ModelState :=
  if s.destroyed then s
  else
    let instLids := s.instancingLayers.map (fun p => p.2)
    let batchLids := s.currentBatchingLayers.map (fun p => p.2)
    let layers1 := s.layerList.map
      (fun L => if instLids.contains L.lid then L.finalize else L)
    let layers2 := layers1.map
      (fun L => if batchLids.contains L.lid then L.finalize else L)
    let nodes2 := s.nodes.map (fun p => (p.1, { p.2 with finalized := true }))
    let sorted := List.insertionSort layerLE layers2
    { s with
      layerList := reindexLayers sorted
      currentBatchingLayers := []
      nodes := nodes2
      sceneAabbDirty := true }

/-! ## Render flags -/

/-- `VBOSceneModel#_updateRenderFlagsVisibleLayers` (`Canvas.js` lines
2363-2370): records the layer count and appends every layer index to
`visibleLayers`, incrementing `numVisibleLayers` each time (the loop has no
per-layer visibility test). -/
def updateRenderFlagsVisibleLayers (s : ModelState) : ModelState :=
  let rf := { s.renderFlags with
    numLayers := s.layerList.length
    numVisibleLayers := 0
    visibleLayers := [] }
  let rf := (List.range s.layerList.length).foldl
    (fun rf layerIndex =>
      { rf with
        visibleLayers := rf.visibleLayers ++ [layerIndex]
        numVisibleLayers := rf.numVisibleLayers + 1 })
    rf
  { s with renderFlags := rf }

/-- `VBOSceneModel#_updateRenderFlags` (`Canvas.js` lines 2372-2454): early
returns when no portion is visible or every portion is culled; otherwise
enables the render passes indicated by the counters and the emphasis
materials. -/
def updateRenderFlags (env : SceneEnv) (s : ModelState) : ModelState :=
  if s.numVisibleLayerPortions = 0 then s
  else if s.numCulledLayerPortions = s.numPortions then s
  else
    let rf := s.renderFlags
    let rf := { rf with
      colorOpaque := s.numTransparentLayerPortions < s.numPortions
      colorTransparent := 0 < s.numTransparentLayerPortions }
    let rf :=
      if 0 < s.numXRayedLayerPortions then
        let m := env.xrayMaterial
        let rf :=
          if m.fill then
            if m.fillAlphaLt1 then { rf with xrayedSilhouetteTransparent := true }
            else { rf with xrayedSilhouetteOpaque := true }
          else rf
        if m.edges then
          if m.edgeAlphaLt1 then { rf with xrayedEdgesTransparent := true }
          else { rf with xrayedEdgesOpaque := true }
        else rf
      else rf
    let rf :=
      if 0 < s.numEdgesLayerPortions then
        if env.edgeMaterialEdges then
          { rf with
            edgesOpaque := s.numTransparentLayerPortions < s.numPortions
            edgesTransparent := 0 < s.numTransparentLayerPortions }
        else rf
      else rf
    let rf :=
      if 0 < s.numSelectedLayerPortions then
        let m := env.selectedMaterial
        let rf :=
          if m.fill then
            if m.fillAlphaLt1 then { rf with selectedSilhouetteTransparent := true }
            else { rf with selectedSilhouetteOpaque := true }
          else rf
        if m.edges then
          if m.edgeAlphaLt1 then { rf with selectedEdgesTransparent := true }
          else { rf with selectedEdgesOpaque := true }
        else rf
      else rf
    let rf :=
      if 0 < s.numHighlightedLayerPortions then
        let m := env.highlightMaterial
        let rf :=
          if m.fill then
            if m.fillAlphaLt1 then { rf with highlightedSilhouetteTransparent := true }
            else { rf with highlightedSilhouetteOpaque := true }
          else rf
        if m.edges then
          if m.edgeAlphaLt1 then { rf with highlightedEdgesTransparent := true }
          else { rf with highlightedEdgesOpaque := true }
        else rf
      else rf
    { s with renderFlags := rf }

/-- `VBOSceneModel#rebuildRenderFlags` (`Canvas.js` lines 2350-2358): reset,
record visible layers, short-circuit to `culled` when there are layers but
none visible, else update the per-pass flags. -/
def rebuildRenderFlags (env : SceneEnv) (s : ModelState) : ModelState :=
  let s := { s with renderFlags := RenderFlags.reset }
  let s := updateRenderFlagsVisibleLayers s
  if 0 < s.renderFlags.numLayers ∧ s.renderFlags.numVisibleLayers = 0 then
    { s with renderFlags := { s.renderFlags with culled := true } }
  else
    updateRenderFlags env s

/-! ## Visibility -/

/-- `VBOSceneModel#get visible` (`Canvas.js` lines 1083-1085): derived
solely from the visible-portion counter. -/
def getVisible (s : ModelState) : Bool :=
  decide (0 < s.numVisibleLayerPortions)

/-- Modelled from the spec: setting an entity's `visible` flag (missing node
class) updates the flag and, when the value actually changes, adjusts
`numVisibleLayerPortions` by exactly the number of portions the entity
owns. -/
def setNodeVisible (s : ModelState) (nid : String) (v : Bool) : ModelState :=
  match alookup s.nodes nid with
  | none => s
  | some node =>
    if node.visible = v then s
    else
      let s := { s with nodes := aset s.nodes nid { node with visible := v } }
      if v then
        { s with numVisibleLayerPortions := s.numVisibleLayerPortions + node.numPortions }
      else
        { s with numVisibleLayerPortions := s.numVisibleLayerPortions - node.numPortions }

/-- `VBOSceneModel#set visible` (`Canvas.js` lines 1094-1101): coerce the
argument (`visible !== false`), store the model-level flag, and fan the value
out to every node; the counter is never touched directly by the setter. -/
def setVisible (s : ModelState) (v : Option Bool) : ModelState :=
  let visible := v ≠ some false
  let s := { s with visibleFlag := visible }
  s.nodeList.foldl (fun st nid => setNodeVisible st nid visible) s

/-! ## Shared helper lemmas -/

theorem validateOption_snd (s : ModelState) (given : Option Nat) (dflt : Nat)
    (supported : List Nat) (msg : String) :
    (validateOption s given dflt supported msg).2 =
      if given.getD dflt ∈ supported then given.getD dflt else dflt := by
  unfold validateOption
  dsimp only
  split_ifs <;> rfl

theorem validateOption_fst (s : ModelState) (given : Option Nat) (dflt : Nat)
    (supported : List Nat) (msg : String) :
    (validateOption s given dflt supported msg).1 =
      { s with errors := s.errors ++ if given.getD dflt ∈ supported then [] else [msg] } := by
  unfold validateOption logError
  dsimp only
  split_ifs <;> simp


theorem alookup_aset_self {κ α : Type} [DecidableEq κ] (m : List (κ × α)) (k : κ) (v : α) :
    alookup (aset m k v) k = some v := by
  induction m with
  | nil => simp [aset, alookup]
  | cons p rest ih =>
    by_cases h : p.1 = k
    · simp [aset, alookup, h]
    · simp [aset, alookup, h, ih]

theorem alookup_aset_ne {κ α : Type} [DecidableEq κ] (m : List (κ × α)) (k k2 : κ) (v : α)
    (h : k ≠ k2) : alookup (aset m k v) k2 = alookup m k2 := by
  induction m with
  | nil => simp [aset, alookup, h]
  | cons p rest ih =>
    by_cases h2 : p.1 = k
    · simp [aset, alookup, h2, h]
    · by_cases h3 : p.1 = k2 <;> simp [aset, alookup, h2, h3, ih, Ne.symm h]

theorem mem_of_alookup_eq_some {κ α : Type} [DecidableEq κ] {m : List (κ × α)} {k : κ} {v : α}
    (h : alookup m k = some v) : (k, v) ∈ m := by
  induction m with
  | nil => simp [alookup] at h
  | cons p rest ih =>
    by_cases h2 : p.1 = k
    · simp only [alookup, h2, if_pos rfl] at h
      cases p
      simp_all
    · simp only [alookup, h2, if_neg h2] at h
      exact List.mem_cons_of_mem _ (ih h)

theorem alookup_map_pair {α : Type} [DecidableEq String] (g : String → α → α)
    (m : List (String × α)) (k : String) :
    alookup (m.map (fun p => (p.1, g p.1 p.2))) k = (alookup m k).map (g k) := by
  induction m with
  | nil => simp [alookup]
  | cons p rest ih =>
    by_cases h : p.1 = k
    · simp [alookup, h]
    · simp [alookup, h, ih]

theorem mem_aset {κ α : Type} [DecidableEq κ] {m : List (κ × α)} {k : κ} {v : α}
    {p : κ × α} : p ∈ aset m k v → p = (k, v) ∨ p ∈ m := by
  induction m with
  | nil =>
    intro h
    simpa [aset] using h
  | cons q rest ih =>
    intro h
    obtain ⟨k2, v2⟩ := q
    by_cases h2 : k2 = k
    · simp only [aset, h2, if_true, eq_self_iff_true, List.mem_cons] at h
      rcases h with h | h
      · exact Or.inl h
      · exact Or.inr (List.mem_cons_of_mem _ h)
    · simp only [aset, h2, if_false, List.mem_cons] at h
      rcases h with h | h
      · exact Or.inr (h ▸ List.mem_cons_self _ _)
      · rcases ih h with h3 | h3
        · exact Or.inl h3
        · exact Or.inr (List.mem_cons_of_mem _ h3)

theorem setNodeVisible_zero_portions (s : ModelState) (nid : String) (v : Bool)
    (h2 : ∀ p ∈ s.nodes, (p.2 : Node).numPortions = 0) :
    (setNodeVisible s nid v).numVisibleLayerPortions = s.numVisibleLayerPortions ∧
    (∀ p ∈ (setNodeVisible s nid v).nodes, (p.2 : Node).numPortions = 0) ∧
    (setNodeVisible s nid v).visibleFlag = s.visibleFlag ∧
    (setNodeVisible s nid v).nodeList = s.nodeList := by
  unfold setNodeVisible
  rcases hl : alookup s.nodes nid with _ | node
  · exact ⟨rfl, h2, rfl, rfl⟩
  · have hz : node.numPortions = 0 := h2 _ (mem_of_alookup_eq_some hl)
    by_cases hv : node.visible = v
    · simp only [hv, if_pos rfl]
      exact ⟨rfl, h2, rfl, rfl⟩
    · have hmem : ∀ p ∈ aset s.nodes nid { node with visible := v },
          (p.2 : Node).numPortions = 0 := by
        intro p hp
        rcases mem_aset hp with h3 | h3
        · subst h3; simpa using hz
        · exact h2 _ h3
      cases v <;> simp_all <;> exact hmem

theorem setVisible_fold_zero_portions (l : List String) (s : ModelState) (v : Bool)
    (h2 : ∀ p ∈ s.nodes, (p.2 : Node).numPortions = 0) :
    (l.foldl (fun st nid => setNodeVisible st nid v) s).numVisibleLayerPortions =
      s.numVisibleLayerPortions ∧
    (l.foldl (fun st nid => setNodeVisible st nid v) s).visibleFlag = s.visibleFlag := by
  induction l generalizing s with
  | nil => exact ⟨rfl, rfl⟩
  | cons nid rest ih =>
    have h1 := setNodeVisible_zero_portions s nid v h2
    have h3 := ih (setNodeVisible s nid v) h1.2.1
    simp only [List.foldl_cons]
    exact ⟨h3.1.trans h1.1, h3.2.trans h1.2.2.1⟩

/-- The predicate deciding which of the requested mesh ids `createEntity`
actually collects: the mesh exists and is not yet claimed by an entity. -/
def meshCollectible (s : ModelState) (mid : String) : Bool :=
  match alookup s.meshes mid with
  | some m => m.parent.isNone
  | none => false

theorem finalize_lid (L : Layer) : L.finalize.lid = L.lid := by
  unfold Layer.finalize
  split <;> rfl

theorem finalize_finalized (L : Layer) : L.finalize.finalized = true := by
  unfold Layer.finalize
  split <;> simp_all

theorem setLayerList_length (l : List Layer) (lid : Nat) (LB : Layer) :
    (setLayerList l lid LB).length = l.length := by
  unfold setLayerList
  exact List.length_map _ _

theorem mem_setLayerList {l : List Layer} {lid : Nat} {LB : Layer} {x : Layer}
    (h : x ∈ setLayerList l lid LB) : x = LB ∨ x ∈ l := by
  unfold setLayerList at h
  obtain ⟨a, ha, hax⟩ := List.mem_map.mp h
  by_cases hc : a.lid = lid
  · rw [if_pos hc] at hax
    exact Or.inl hax.symm
  · rw [if_neg hc] at hax
    exact Or.inr (hax ▸ ha)

theorem layerAt_set_found (l : List Layer) (lid : Nat) (L LB : Layer)
    (h : l.find? (fun L2 => L2.lid = lid) = some L) (hLB : LB.lid = lid) :
    (setLayerList l lid LB).find? (fun L2 => L2.lid = lid) = some LB := by
  induction l with
  | nil => simp [List.find?] at h
  | cons a rest ih =>
    by_cases ha : a.lid = lid
    · rw [show setLayerList (a :: rest) lid LB = LB :: setLayerList rest lid LB by
        unfold setLayerList
        simp [ha]]
      exact List.find?_cons_of_pos _ (by simp [hLB])
    · rw [show setLayerList (a :: rest) lid LB = a :: setLayerList rest lid LB by
        unfold setLayerList
        simp [ha]]
      rw [List.find?_cons_of_neg _ (by simp [ha])]
      rw [List.find?_cons_of_neg _ (by simp [ha])] at h
      exact ih h

theorem find_setLayerList_ne (l : List Layer) (lidA lidB : Nat) (LB : Layer)
    (hne : lidA ≠ lidB) (hLB : LB.lid = lidB) :
    (setLayerList l lidB LB).find? (fun L2 => L2.lid = lidA) =
      l.find? (fun L2 => L2.lid = lidA) := by
  induction l with
  | nil => rfl
  | cons a rest ih =>
    by_cases ha : a.lid = lidB
    · rw [show setLayerList (a :: rest) lidB LB = LB :: setLayerList rest lidB LB by
        unfold setLayerList
        simp [ha]]
      rw [List.find?_cons_of_neg _ (by simp [hLB, Ne.symm hne]),
        List.find?_cons_of_neg _ (by simp [ha, Ne.symm hne])]
      exact ih
    · rw [show setLayerList (a :: rest) lidB LB = a :: setLayerList rest lidB LB by
        unfold setLayerList
        simp [ha]]
      by_cases hp : a.lid = lidA
      · rw [List.find?_cons_of_pos _ (by simp [hp]), List.find?_cons_of_pos _ (by simp [hp])]
      · rw [List.find?_cons_of_neg _ (by simp [hp]), List.find?_cons_of_neg _ (by simp [hp])]
        exact ih

theorem needNewForOrigin_same (o : Vec3) : needNewForOrigin (some o) o = false := by
  simp [needNewForOrigin]

theorem needNewForMatrix_none (last : Option (List Int)) :
    needNewForMatrix last none = false := rfl

theorem needNewForMatrix_same (m : List Int) :
    needNewForMatrix (some m) (some m) = false := by
  simp [needNewForMatrix]

theorem needNewForTextureSet_none (last : Option String) :
    needNewForTextureSet last none = false := rfl

theorem needNewForTextureSet_same (t : String) :
    needNewForTextureSet (some t) (some t) = false := by
  simp [needNewForTextureSet]

theorem normalsFlushNeeded_same (last : Option Bool) (b : Bool) (h : last = none ∨ last = some b) :
    normalsFlushNeeded last b = false := by
  rcases h with h | h <;> subst h <;> simp [normalsFlushNeeded]

theorem batchingOriginPositions_nextPickId (s : ModelState) (n : Nat) (cfg : MeshCfg) :
    batchingOriginPositions { s with nextPickId := n } cfg =
      batchingOriginPositions s cfg := rfl

instance : IsTotal Layer layerLE :=
  ⟨fun a b => le_total a.sortId b.sortId⟩

instance : IsTrans Layer layerLE :=
  ⟨fun _ _ _ hab hbc => le_trans hab hbc⟩

theorem finalize_idem_layer (L : Layer) : L.finalize.finalize = L.finalize := by
  unfold Layer.finalize
  by_cases h : L.finalized
  · simp [h]
  · simp [h]

theorem finalize_of_finalized (L : Layer) (h : L.finalized = true) : L.finalize = L := by
  unfold Layer.finalize
  simp [h]

theorem mem_reindexLayersFrom {x : Layer} :
    ∀ {i : Nat} {l : List Layer}, x ∈ reindexLayersFrom i l →
      ∃ z ∈ l, x.lid = z.lid ∧ x.finalized = z.finalized ∧ x.sortId = z.sortId := by
  intro i l
  induction l generalizing i with
  | nil => intro h; simp [reindexLayersFrom] at h
  | cons L rest ih =>
    intro h
    rcases List.mem_cons.mp h with h | h
    · exact ⟨L, List.mem_cons_self _ _, by subst h; exact ⟨rfl, rfl, rfl⟩⟩
    · obtain ⟨z, hz, hx⟩ := ih h
      exact ⟨z, List.mem_cons_of_mem _ hz, hx⟩

theorem sorted_reindexLayersFrom :
    ∀ (i : Nat) (l : List Layer), List.Sorted layerLE l →
      List.Sorted layerLE (reindexLayersFrom i l)
  | _, [], _ => List.sorted_nil
  | i, L :: rest, h => by
    rw [List.sorted_cons] at h
    rw [show reindexLayersFrom i (L :: rest) =
      { L with layerIndex := i } :: reindexLayersFrom (i + 1) rest from rfl]
    rw [List.sorted_cons]
    refine ⟨?_, sorted_reindexLayersFrom (i + 1) rest h.2⟩
    intro y hy
    obtain ⟨z, hz, _, _, hsort⟩ := mem_reindexLayersFrom hy
    show ({ L with layerIndex := i } : Layer).sortId ≤ y.sortId
    rw [hsort]
    exact h.1 z hz

theorem reindexLayersFrom_idem : ∀ (i : Nat) (l : List Layer),
    reindexLayersFrom i (reindexLayersFrom i l) = reindexLayersFrom i l
  | _, [] => rfl
  | i, L :: rest => by
    show ({ L with layerIndex := i } : Layer) ::
        reindexLayersFrom (i + 1) (reindexLayersFrom (i + 1) rest) =
      { L with layerIndex := i } :: reindexLayersFrom (i + 1) rest
    rw [reindexLayersFrom_idem (i + 1) rest]

theorem if_finalize_lid (c : Prop) [Decidable c] (L : Layer) :
    (if c then L.finalize else L).lid = L.lid := by
  split <;> simp [finalize_lid]

theorem if_finalize_finalized_of (c : Prop) [Decidable c] (L : Layer)
    (h : L.finalized = true) : (if c then L.finalize else L).finalized = true := by
  split
  · exact finalize_finalized L
  · exact h

theorem find_append_new {Lnew : Layer} (l : List Layer) (nLid : Nat)
    (hfr : ∀ x ∈ l, x.lid < nLid) (hnew : Lnew.lid = nLid) :
    (l ++ [Lnew]).find? (fun L2 => L2.lid = nLid) = some Lnew := by
  rw [List.find?_append]
  have h1 : l.find? (fun L2 => L2.lid = nLid) = none :=
    List.find?_eq_none.mpr (fun x hx => by
      simp only [decide_eq_true_eq]
      exact Nat.ne_of_lt (hfr x hx))
  rw [h1]
  simp [hnew]

theorem createPortionCounts_lid (L : Layer) (a b : Nat) :
    (L.createPortionCounts a b).lid = L.lid := rfl

theorem recentreFlat_length (c : Vec3) : ∀ l : List Int,
    (recentreFlat c l).length = l.length
  | [] => rfl
  | [_] => rfl
  | [_, _] => rfl
  | x :: y :: z :: rest => by
    simp only [recentreFlat, List.length_cons]
    rw [recentreFlat_length c rest]

theorem worldToRTCPositions_length (ps : List Int) :
    (worldToRTCPositions ps).1.length = ps.length := by
  unfold worldToRTCPositions
  dsimp only
  split <;> simp [recentreFlat_length]

theorem batchingOriginPositions_some (s : ModelState) (cfg : MeshCfg) (ps : List Int)
    (hpos : cfg.positions = some ps) :
    ∃ ps2 : List Int, (batchingOriginPositions s cfg).2 = some ps2 ∧
      ps2.length = ps.length := by
  unfold batchingOriginPositions
  rw [hpos]
  dsimp only
  split
  · exact ⟨_, rfl, worldToRTCPositions_length ps⟩
  · exact ⟨_, rfl, rfl⟩

theorem expandAABB3_collapse (a : AABB) (h : aabbInRange a) :
    expandAABB3 collapseAABB3 a = a := by
  obtain ⟨h1, h2, h3, h4, h5, h6⟩ := h
  unfold MAXDN at h1 h2 h3 h4 h5 h6
  unfold expandAABB3 collapseAABB3 MAXD MAXDN
  obtain ⟨x1, y1, z1, x2, y2, z2⟩ := a
  simp only [AABB.mk.injEq]
  refine ⟨?_, ?_, ?_, ?_, ?_, ?_⟩ <;> simp_all <;> omega

theorem entityAABB_fold_eq_map (s : ModelState) (l : List String) (box : AABB)
    (hl : ∀ mid ∈ l, (alookup s.meshes mid).isSome = true) :
    l.foldl
      (fun box meshId =>
        match alookup s.meshes meshId with
        | some m => expandAABB3 box m.aabb
        | none => box) box =
    (l.map (fun mid =>
      match alookup s.meshes mid with
      | some m => m.aabb
      | none => collapseAABB3)).foldl expandAABB3 box := by
  induction l generalizing box with
  | nil => rfl
  | cons mid rest ih =>
    have hmid := hl mid (List.mem_cons_self _ _)
    rcases hsome : alookup s.meshes mid with _ | m
    · rw [hsome] at hmid; simp at hmid
    · simp only [List.foldl_cons, List.map_cons, hsome]
      exact ih _ (fun x hx => hl x (List.mem_cons_of_mem _ hx))

theorem entityAABB_eq_union (s : ModelState) (l : List String)
    (hl : ∀ mid ∈ l, (alookup s.meshes mid).isSome = true)
    (hrange : ∀ mid m, alookup s.meshes mid = some m → aabbInRange m.aabb)
    (hne : l ≠ []) :
    entityAABB s l =
      (l.map (fun mid =>
        match alookup s.meshes mid with
        | some m => m.aabb
        | none => collapseAABB3)).foldl expandAABB3 collapseAABB3 := by
  by_cases hlen : l.length = 1
  · obtain ⟨mid, rfl⟩ := List.length_eq_one.mp hlen
    have hmid := hl mid (List.mem_cons_self _ _)
    rcases hsome : alookup s.meshes mid with _ | m
    · rw [hsome] at hmid; simp at hmid
    · unfold entityAABB
      rw [if_pos hlen]
      dsimp only [List.headD, List.map_cons, List.map_nil, List.foldl_cons, List.foldl_nil]
      rw [hsome]
      exact (expandAABB3_collapse m.aabb (hrange mid m hsome)).symm
  · unfold entityAABB
    rw [if_neg hlen]
    exact entityAABB_fold_eq_map s l collapseAABB3 hl

theorem entityAABB_errors_irrelevant (s : ModelState) (e : List String) (l : List String) :
    entityAABB { s with errors := e } l = entityAABB s l := rfl

theorem addEntityCounters_meshes (s : ModelState) (flags nPort : Nat) :
    (addEntityCounters s flags nPort).meshes = s.meshes := rfl

theorem addEntityCounters_errors (s : ModelState) (flags nPort : Nat) :
    (addEntityCounters s flags nPort).errors = s.errors := rfl

theorem addEntityCounters_numEntities (s : ModelState) (flags nPort : Nat) :
    (addEntityCounters s flags nPort).numEntities = s.numEntities := rfl

theorem collectMeshes_fold (s : ModelState) (ids : List String) (e : List String)
    (acc0 : List String) :
    ∃ msgs : List String,
      ids.foldl collectStep ({ s with errors := e }, acc0) =
      ({ s with errors := e ++ msgs }, acc0 ++ ids.filter (meshCollectible s)) ∧
      msgs.length + (ids.filter (meshCollectible s)).length = ids.length := by
  induction ids generalizing e acc0 with
  | nil => exact ⟨[], by simp, by simp⟩
  | cons mid rest ih =>
    rw [List.foldl_cons]
    rcases hl : alookup s.meshes mid with _ | mesh
    · have hpred : meshCollectible s mid = false := by simp [meshCollectible, hl]
      have hstep : collectStep ({ s with errors := e }, acc0) mid =
          ({ s with errors := e ++ ["Mesh with this ID not found - ignoring this mesh"] }, acc0) := by
        unfold collectStep logError
        dsimp only
        rw [hl]
      obtain ⟨msgs, h1, h2⟩ := ih (e ++ ["Mesh with this ID not found - ignoring this mesh"]) acc0
      refine ⟨"Mesh with this ID not found - ignoring this mesh" :: msgs, ?_, ?_⟩
      · rw [hstep, h1]
        simp [List.append_assoc, List.filter_cons, hpred]
      · simp only [List.filter_cons, hpred, Bool.false_eq_true, if_false, List.length_cons]
        omega
    · by_cases hp : mesh.parent.isSome
      · have hpred : meshCollectible s mid = false := by
          rcases hv : mesh.parent with _ | v
          · rw [hv] at hp; simp at hp
          · simp [meshCollectible, hl, hv]
        have hstep : collectStep ({ s with errors := e }, acc0) mid =
            ({ s with errors := e ++ ["Mesh already belongs to an object - ignoring this mesh"] }, acc0) := by
          unfold collectStep logError
          dsimp only
          rw [hl]
          simp only [hp, if_true]
        obtain ⟨msgs, h1, h2⟩ :=
          ih (e ++ ["Mesh already belongs to an object - ignoring this mesh"]) acc0
        refine ⟨"Mesh already belongs to an object - ignoring this mesh" :: msgs, ?_, ?_⟩
        · rw [hstep, h1]
          simp [List.append_assoc, List.filter_cons, hpred]
        · simp only [List.filter_cons, hpred, Bool.false_eq_true, if_false, List.length_cons]
          omega
      · have hpred : meshCollectible s mid = true := by
          simp only [meshCollectible, hl]
          simpa [Option.isNone_iff_eq_none, Option.not_isSome_iff_eq_none] using hp
        have hstep : collectStep ({ s with errors := e }, acc0) mid =
            ({ s with errors := e }, acc0 ++ [mid]) := by
          unfold collectStep
          dsimp only
          rw [hl]
          simp only [hp, Bool.false_eq_true, if_false]
        obtain ⟨msgs, h1, h2⟩ := ih e (acc0 ++ [mid])
        refine ⟨msgs, ?_, ?_⟩
        · rw [hstep, h1]
          simp [List.append_assoc, List.filter_cons, hpred]
        · simp only [List.filter_cons, hpred, if_true, List.length_cons]
          omega

theorem collectMeshes_spec (s : ModelState) (ids : List String) :
    ∃ msgs : List String,
      collectMeshes s ids = ({ s with errors := s.errors ++ msgs },
        ids.filter (meshCollectible s)) ∧
      msgs.length + (ids.filter (meshCollectible s)).length = ids.length := by
  obtain ⟨msgs, h1, h2⟩ := collectMeshes_fold s ids s.errors []
  refine ⟨msgs, ?_, h2⟩
  unfold collectMeshes
  rw [show ({ s with errors := s.errors } : ModelState) = s from rfl] at h1
  rw [h1]
  simp

theorem foldl_visibleLayers (l : List Nat) (rf : RenderFlags) :
    l.foldl
      (fun rf layerIndex =>
        { rf with
          visibleLayers := rf.visibleLayers ++ [layerIndex]
          numVisibleLayers := rf.numVisibleLayers + 1 }) rf =
    { rf with
      visibleLayers := rf.visibleLayers ++ l
      numVisibleLayers := rf.numVisibleLayers + l.length } := by
  induction l generalizing rf with
  | nil => simp
  | cons i rest ih =>
    rw [List.foldl_cons, ih]
    simp [RenderFlags.mk.injEq, List.append_assoc]
    omega

theorem updateRFVL_spec (s : ModelState) :
    updateRenderFlagsVisibleLayers s =
      { s with renderFlags := { s.renderFlags with
          numLayers := s.layerList.length
          numVisibleLayers := s.layerList.length
          visibleLayers := List.range s.layerList.length } } := by
  unfold updateRenderFlagsVisibleLayers
  dsimp only
  rw [foldl_visibleLayers]
  simp

/-- Concrete single-layer model used to settle C4: one finalized batching
layer holding one portion, with no visible portions. -/
def c4Layer : Layer :=
  { lid := 0, kind := .trianglesBatching, primitive := "triangles",
    origin := ⟨0, 0, 0⟩, positionsDecodeMatrix := none, uvDecodeMatrix := none,
    textureSetId := some defaultTextureSetId, solid := false, autoNormals := true,
    maxGeometryBatchSize := none, posOccupancy := 9, idxOccupancy := 3,
    numPortions := 1, geomNumIndices := 0, finalized := true, uploadCount := 1,
    sortId := layerSortId .trianglesBatching false, layerIndex := 0 }

/-- See `c4Layer`. -/
def c4State : ModelState :=
  { initialModel with layerList := [c4Layer], nextLid := 1, numPortions := 1 }

/-- Scene environment with every emphasis material fully enabled. -/
def c4Env : SceneEnv :=
  ⟨⟨true, true, true, true⟩, ⟨true, true, true, true⟩, ⟨true, true, true, true⟩, true⟩

/-! ## Claim theorems -/

/-- C8: for every 32-bit pick identifier, the quantized pick color computed
by `createMesh` (the `mkPickColor` step it stores on the mesh) is exactly the
four bytes of the identifier: `r = pickId & 0xFF`, `g = (pickId >> 8) & 0xFF`,
`b = (pickId >> 16) & 0xFF`, `a = (pickId >> 24) & 0xFF`, stored in
`[r, g, b, a]` order, even though the source computes them with signed
JavaScript shifts. -/
theorem mkPickColor_is_pickId_bytes (pid : Nat) (h : pid < 2 ^ 32) :
    mkPickColor pid =
      [(pid % 256 : Int), ((pid / 2 ^ 8) % 256 : Int),
       ((pid / 2 ^ 16) % 256 : Int), ((pid / 2 ^ 24) % 256 : Int)] := by
  simp only [mkPickColor, toInt32, jsShr, jsAnd255, Nat.mod_eq_of_lt h,
    List.cons.injEq, and_true]
  split <;> push_cast <;> omega

/-- C8 witness: the byte split at the concrete pick id `0xDEADBEEF`, which
exercises the sign-extension case (`pid ≥ 2^31`). -/
theorem mkPickColor_is_pickId_bytes_witness :
    3735928559 < 2 ^ 32 ∧
      mkPickColor 3735928559 =
        [(3735928559 % 256 : Int), ((3735928559 / 2 ^ 8) % 256 : Int),
         ((3735928559 / 2 ^ 16) % 256 : Int), ((3735928559 / 2 ^ 24) % 256 : Int)] :=
  ⟨by norm_num, mkPickColor_is_pickId_bytes 3735928559 (by norm_num)⟩

/-- C5: a geometry config with both `positions` and `positionsCompressed`
omitted is rejected by `createGeometry` with exactly one logged error and an
early return: the geometry registry, `numGeometries` and the triangle count
are unchanged. -/
theorem createGeometry_missing_positions_rejected (s : ModelState) (cfg : GeometryCfg)
    (hp : cfg.positions = none) (hpc : cfg.positionsCompressed = none) :
    (createGeometry s cfg).geometries = s.geometries ∧
    (createGeometry s cfg).numGeometries = s.numGeometries ∧
    (createGeometry s cfg).numTriangles = s.numTriangles ∧
    (createGeometry s cfg).errors.length = s.errors.length + 1 := by
  unfold createGeometry
  rcases hcase : cfg.id with _ | gid
  · simp [logError]
  · rcases hprim : cfg.primitive with _ | prim
    · by_cases hdup : (alookup s.geometries gid).isSome <;> simp [hdup, logError]
    · by_cases hdup : (alookup s.geometries gid).isSome
      · simp [hdup, logError]
      · simp only [hdup, hp, hpc, Bool.false_eq_true, if_false]
        split_ifs <;> simp_all [logError]

/-- C5 witness: concrete rejection of a positionless triangle geometry on the
fresh model. -/
theorem createGeometry_missing_positions_rejected_witness :
    ({ id := some "gBad", primitive := some "triangles",
       indices := some [0, 1, 2] } : GeometryCfg).positions = none ∧
    ({ id := some "gBad", primitive := some "triangles",
       indices := some [0, 1, 2] } : GeometryCfg).positionsCompressed = none ∧
    ((createGeometry initialModel
        { id := some "gBad", primitive := some "triangles", indices := some [0, 1, 2] }).geometries =
      initialModel.geometries ∧
     (createGeometry initialModel
        { id := some "gBad", primitive := some "triangles", indices := some [0, 1, 2] }).numGeometries =
      initialModel.numGeometries ∧
     (createGeometry initialModel
        { id := some "gBad", primitive := some "triangles", indices := some [0, 1, 2] }).numTriangles =
      initialModel.numTriangles ∧
     (createGeometry initialModel
        { id := some "gBad", primitive := some "triangles", indices := some [0, 1, 2] }).errors.length =
      initialModel.errors.length + 1) :=
  ⟨rfl, rfl,
    createGeometry_missing_positions_rejected initialModel
      { id := some "gBad", primitive := some "triangles", indices := some [0, 1, 2] } rfl rfl⟩

/-- C10: the `visible` getter is derived solely from the portion counter
(true iff `numVisibleLayerPortions > 0`), so on a model with zero portions
the getter returns `false` even immediately after `visible = true`; the
setter stores the model flag and fans out to entities without touching the
counter directly. -/
theorem visible_getter_counter_only (s : ModelState)
    (h : s.numVisibleLayerPortions = 0)
    (h2 : ∀ p ∈ s.nodes, (p.2 : Node).numPortions = 0) :
    (getVisible s = true ↔ 0 < s.numVisibleLayerPortions) ∧
    getVisible (setVisible s (some true)) = false ∧
    (setVisible s (some true)).numVisibleLayerPortions = 0 ∧
    (setVisible s (some true)).visibleFlag = true := by
  have hbase :
      (setVisible s (some true)).numVisibleLayerPortions = 0 ∧
      (setVisible s (some true)).visibleFlag = true := by
    unfold setVisible
    have hf := setVisible_fold_zero_portions s.nodeList
      { s with visibleFlag := (some true ≠ some false) } ((some true : Option Bool) ≠ some false)
      (by intro p hp; exact h2 p hp)
    simp only [] at hf ⊢
    refine ⟨hf.1.trans ?_, hf.2.trans ?_⟩ <;> simp [h]
  refine ⟨by simp [getVisible], ?_, hbase.1, hbase.2⟩
  simp [getVisible, hbase.1]

/-- C10 witness: the fresh model (zero portions): setting `visible = true`
still reads back `false`. -/
theorem visible_getter_counter_only_witness :
    initialModel.numVisibleLayerPortions = 0 ∧
    ((getVisible initialModel = true ↔ 0 < initialModel.numVisibleLayerPortions) ∧
     getVisible (setVisible initialModel (some true)) = false ∧
     (setVisible initialModel (some true)).numVisibleLayerPortions = 0 ∧
     (setVisible initialModel (some true)).visibleFlag = true) :=
  ⟨rfl, visible_getter_counter_only initialModel rfl (by intro p hp; simp [initialModel] at hp)⟩

/-- C4 counterexample: on a model with one layer and zero visible portions,
`rebuildRenderFlags` does NOT set `renderFlags.culled` (the claim says it
does): `_updateRenderFlagsVisibleLayers` records every layer as visible, so
the culled short-circuit condition `numLayers > 0 && numVisibleLayers === 0`
never holds. -/
theorem rebuildRenderFlags_zero_visible_culled_counterexample :
    c4State.layerList.length = 1 ∧
    c4State.numVisibleLayerPortions = 0 ∧
    (rebuildRenderFlags c4Env c4State).renderFlags.culled = false := by
  refine ⟨rfl, rfl, ?_⟩
  rfl

/-- C4 (amended): for every model with at least one layer and zero visible
portions, rebuilding the render flags leaves `renderFlags.culled` false (the
culled short-circuit is unreachable because every layer index is recorded as
visible), yet still sets no per-pass render flag, because `_updateRenderFlags`
returns early when `numVisibleLayerPortions` is 0 — so no render pass is
enabled for the model in that state. -/
theorem rebuildRenderFlags_zero_visible_no_passes (env : SceneEnv) (s : ModelState)
    (hl : s.layerList ≠ []) (h : s.numVisibleLayerPortions = 0) :
    (rebuildRenderFlags env s).renderFlags.culled = false ∧
    (rebuildRenderFlags env s).renderFlags.numVisibleLayers = s.layerList.length ∧
    (rebuildRenderFlags env s).renderFlags.colorOpaque = false ∧
    (rebuildRenderFlags env s).renderFlags.colorTransparent = false ∧
    (rebuildRenderFlags env s).renderFlags.edgesOpaque = false ∧
    (rebuildRenderFlags env s).renderFlags.edgesTransparent = false ∧
    (rebuildRenderFlags env s).renderFlags.xrayedSilhouetteOpaque = false ∧
    (rebuildRenderFlags env s).renderFlags.xrayedSilhouetteTransparent = false ∧
    (rebuildRenderFlags env s).renderFlags.xrayedEdgesOpaque = false ∧
    (rebuildRenderFlags env s).renderFlags.xrayedEdgesTransparent = false ∧
    (rebuildRenderFlags env s).renderFlags.selectedSilhouetteOpaque = false ∧
    (rebuildRenderFlags env s).renderFlags.selectedSilhouetteTransparent = false ∧
    (rebuildRenderFlags env s).renderFlags.selectedEdgesOpaque = false ∧
    (rebuildRenderFlags env s).renderFlags.selectedEdgesTransparent = false ∧
    (rebuildRenderFlags env s).renderFlags.highlightedSilhouetteOpaque = false ∧
    (rebuildRenderFlags env s).renderFlags.highlightedSilhouetteTransparent = false ∧
    (rebuildRenderFlags env s).renderFlags.highlightedEdgesOpaque = false ∧
    (rebuildRenderFlags env s).renderFlags.highlightedEdgesTransparent = false := by
  have hlen : s.layerList.length ≠ 0 := by
    simpa [List.length_eq_zero] using hl
  unfold rebuildRenderFlags
  dsimp only
  rw [updateRFVL_spec]
  have hcond : ¬(0 < s.layerList.length ∧ s.layerList.length = 0) := by omega
  simp only [RenderFlags.reset, hcond, if_false, updateRenderFlags]
  simp [h]

/-- C4 witness for the amended theorem, at the concrete one-layer model. -/
theorem rebuildRenderFlags_zero_visible_no_passes_witness :
    c4State.layerList ≠ [] ∧ c4State.numVisibleLayerPortions = 0 ∧
    ((rebuildRenderFlags c4Env c4State).renderFlags.culled = false ∧
     (rebuildRenderFlags c4Env c4State).renderFlags.numVisibleLayers = c4State.layerList.length ∧
     (rebuildRenderFlags c4Env c4State).renderFlags.colorOpaque = false ∧
     (rebuildRenderFlags c4Env c4State).renderFlags.colorTransparent = false ∧
     (rebuildRenderFlags c4Env c4State).renderFlags.edgesOpaque = false ∧
     (rebuildRenderFlags c4Env c4State).renderFlags.edgesTransparent = false ∧
     (rebuildRenderFlags c4Env c4State).renderFlags.xrayedSilhouetteOpaque = false ∧
     (rebuildRenderFlags c4Env c4State).renderFlags.xrayedSilhouetteTransparent = false ∧
     (rebuildRenderFlags c4Env c4State).renderFlags.xrayedEdgesOpaque = false ∧
     (rebuildRenderFlags c4Env c4State).renderFlags.xrayedEdgesTransparent = false ∧
     (rebuildRenderFlags c4Env c4State).renderFlags.selectedSilhouetteOpaque = false ∧
     (rebuildRenderFlags c4Env c4State).renderFlags.selectedSilhouetteTransparent = false ∧
     (rebuildRenderFlags c4Env c4State).renderFlags.selectedEdgesOpaque = false ∧
     (rebuildRenderFlags c4Env c4State).renderFlags.selectedEdgesTransparent = false ∧
     (rebuildRenderFlags c4Env c4State).renderFlags.highlightedSilhouetteOpaque = false ∧
     (rebuildRenderFlags c4Env c4State).renderFlags.highlightedSilhouetteTransparent = false ∧
     (rebuildRenderFlags c4Env c4State).renderFlags.highlightedEdgesOpaque = false ∧
     (rebuildRenderFlags c4Env c4State).renderFlags.highlightedEdgesTransparent = false) :=
  ⟨by simp [c4State], rfl,
    rebuildRenderFlags_zero_visible_no_passes c4Env c4State (by simp [c4State]) rfl⟩

/-- A valid triangle geometry config, used to settle C1. -/
def c1GeoCfg : GeometryCfg :=
  { id := some "g1", primitive := some "triangles",
    positions := some [0, 0, 0, 1, 0, 0, 0, 1, 0], indices := some [0, 1, 2] }

/-- A model that has been built and finalized, used to settle C1. -/
def c1Finalized : ModelState :=
  finalize (createGeometry initialModel c1GeoCfg)

/-- A second valid geometry config submitted after finalize. -/
def c1GeoCfg2 : GeometryCfg :=
  { id := some "g2", primitive := some "triangles",
    positions := some [0, 0, 0, 1, 0, 0, 0, 1, 0], indices := some [0, 1, 2] }

/-- A valid batched-mesh config submitted after finalize. -/
def c1MeshCfg : MeshCfg :=
  { id := some "m1", primitive := some "triangles",
    positions := some [0, 0, 0, 1, 0, 0, 0, 1, 0], indices := some [0, 1, 2] }

/-- A valid entity config over that mesh, submitted after finalize. -/
def c1EntityCfg : EntityCfg :=
  { id := some "e1", meshIds := some ["m1"] }

/-- C1: the claim (and the source doc comment "Once finalized, you can't add
anything more to this VBOSceneModel") says create calls after `finalize()`
are rejected, but `finalize` records no finalized flag and none of
`createGeometry` / `createMesh` / `createEntity` checks one: after finalize,
a `createGeometry` call registers a new geometry, a `createMesh` call
registers a new mesh, and a `createEntity` call registers a new entity, all
without a single logged error. -/
theorem create_after_finalize_not_rejected :
    (createGeometry c1Finalized c1GeoCfg2).numGeometries = c1Finalized.numGeometries + 1 ∧
    (alookup (createGeometry c1Finalized c1GeoCfg2).geometries "g2").isSome = true ∧
    (createGeometry c1Finalized c1GeoCfg2).errors = c1Finalized.errors ∧
    (alookup (createMesh c1Finalized c1MeshCfg).meshes "m1").isSome = true ∧
    (createMesh c1Finalized c1MeshCfg).errors = c1Finalized.errors ∧
    (createEntity (createMesh c1Finalized c1MeshCfg) c1EntityCfg).1.numEntities = 1 ∧
    (alookup (createEntity (createMesh c1Finalized c1MeshCfg) c1EntityCfg).1.nodes "e1").isSome = true ∧
    (createEntity (createMesh c1Finalized c1MeshCfg) c1EntityCfg).1.errors = c1Finalized.errors := by
  decide

/-- C9: a `createTexture` call with a valid fresh id and an image source but
an unsupported `minFilter` / `magFilter` / `wrapS` / `wrapT` / `wrapR` /
`encoding` value does not hard-fail: the texture is still registered under
its id, each offending option is replaced by its documented default
(`LinearMipmapLinearFilter`, `LinearFilter`, `RepeatWrapping`,
`RepeatWrapping`, `RepeatWrapping`, `LinearEncoding` respectively), and each
offending option contributes exactly one logged error. -/
theorem createTexture_invalid_options_fallback (s : ModelState) (cfg : TextureCfg)
    (tid : String) (hid : cfg.id = some tid)
    (hfresh : alookup s.textures tid = none)
    (hsrc : cfg.src = true ∨ cfg.image = true ∨ cfg.buffers = true) :
    ∃ t : Texture, alookup (createTexture s cfg).textures tid = some t ∧
      (∀ v, cfg.minFilter = some v →
        v ∉ [LinearFilter, LinearMipMapNearestFilter, LinearMipmapLinearFilter,
             NearestMipMapLinearFilter, NearestMipMapNearestFilter] →
        t.options.minFilter = LinearMipmapLinearFilter) ∧
      (∀ v, cfg.magFilter = some v → v ∉ [LinearFilter, NearestFilter] →
        t.options.magFilter = LinearFilter) ∧
      (∀ v, cfg.wrapS = some v →
        v ∉ [ClampToEdgeWrapping, MirroredRepeatWrapping, RepeatWrapping] →
        t.options.wrapS = RepeatWrapping) ∧
      (∀ v, cfg.wrapT = some v →
        v ∉ [ClampToEdgeWrapping, MirroredRepeatWrapping, RepeatWrapping] →
        t.options.wrapT = RepeatWrapping) ∧
      (∀ v, cfg.wrapR = some v →
        v ∉ [ClampToEdgeWrapping, MirroredRepeatWrapping, RepeatWrapping] →
        t.options.wrapR = RepeatWrapping) ∧
      (∀ v, cfg.encoding = some v → v ∉ [LinearEncoding, sRGBEncoding] →
        t.options.encoding = LinearEncoding) ∧
      (createTexture s cfg).errors.length = s.errors.length +
        ((if (cfg.minFilter.getD LinearMipmapLinearFilter) ∉
            [LinearFilter, LinearMipMapNearestFilter, LinearMipmapLinearFilter,
             NearestMipMapLinearFilter, NearestMipMapNearestFilter] then 1 else 0) +
         (if (cfg.magFilter.getD LinearFilter) ∉ [LinearFilter, NearestFilter] then 1 else 0) +
         (if (cfg.wrapS.getD RepeatWrapping) ∉
            [ClampToEdgeWrapping, MirroredRepeatWrapping, RepeatWrapping] then 1 else 0) +
         (if (cfg.wrapT.getD RepeatWrapping) ∉
            [ClampToEdgeWrapping, MirroredRepeatWrapping, RepeatWrapping] then 1 else 0) +
         (if (cfg.wrapR.getD RepeatWrapping) ∉
            [ClampToEdgeWrapping, MirroredRepeatWrapping, RepeatWrapping] then 1 else 0) +
         (if (cfg.encoding.getD LinearEncoding) ∉ [LinearEncoding, sRGBEncoding] then 1 else 0)) := by
  have hdup : ¬ (alookup s.textures tid).isSome = true := by simp [hfresh]
  have hs : ¬ (¬ cfg.src = true ∧ ¬ cfg.image = true ∧ ¬ cfg.buffers = true) := by
    rcases hsrc with h | h | h <;> simp [h]
  unfold createTexture
  rw [hid]
  simp only [hdup, Bool.false_eq_true, if_false, hs]
  refine ⟨_, alookup_aset_self _ _ _, ?_, ?_, ?_, ?_, ?_, ?_, ?_⟩
  · intro v hv hmem
    simp [validateOption_snd, hv, hmem]
  · intro v hv hmem
    simp [validateOption_snd, hv, hmem]
  · intro v hv hmem
    simp [validateOption_snd, hv, hmem]
  · intro v hv hmem
    simp [validateOption_snd, hv, hmem]
  · intro v hv hmem
    simp [validateOption_snd, hv, hmem]
  · intro v hv hmem
    simp [validateOption_snd, hv, hmem]
  · simp only [validateOption_fst]
    simp only [List.length_append]
    split_ifs <;> simp

/-- A texture config with a valid id and image but every option value
unsupported, used as the C9 witness input. -/
def c9Cfg : TextureCfg :=
  { id := some "t1", image := true, minFilter := some 1, magFilter := some 2,
    wrapS := some 3, wrapT := some 4, wrapR := some 5, encoding := some 6 }

/-- C9 witness: the all-invalid-options texture on the fresh model is still
registered with every option at its documented default. -/
theorem createTexture_invalid_options_fallback_witness :
    c9Cfg.id = some "t1" ∧
    alookup initialModel.textures "t1" = none ∧
    (c9Cfg.src = true ∨ c9Cfg.image = true ∨ c9Cfg.buffers = true) ∧
    (∃ t : Texture, alookup (createTexture initialModel c9Cfg).textures "t1" = some t ∧
      (∀ v, c9Cfg.minFilter = some v →
        v ∉ [LinearFilter, LinearMipMapNearestFilter, LinearMipmapLinearFilter,
             NearestMipMapLinearFilter, NearestMipMapNearestFilter] →
        t.options.minFilter = LinearMipmapLinearFilter) ∧
      (∀ v, c9Cfg.magFilter = some v → v ∉ [LinearFilter, NearestFilter] →
        t.options.magFilter = LinearFilter) ∧
      (∀ v, c9Cfg.wrapS = some v →
        v ∉ [ClampToEdgeWrapping, MirroredRepeatWrapping, RepeatWrapping] →
        t.options.wrapS = RepeatWrapping) ∧
      (∀ v, c9Cfg.wrapT = some v →
        v ∉ [ClampToEdgeWrapping, MirroredRepeatWrapping, RepeatWrapping] →
        t.options.wrapT = RepeatWrapping) ∧
      (∀ v, c9Cfg.wrapR = some v →
        v ∉ [ClampToEdgeWrapping, MirroredRepeatWrapping, RepeatWrapping] →
        t.options.wrapR = RepeatWrapping) ∧
      (∀ v, c9Cfg.encoding = some v → v ∉ [LinearEncoding, sRGBEncoding] →
        t.options.encoding = LinearEncoding) ∧
      (createTexture initialModel c9Cfg).errors.length = initialModel.errors.length +
        ((if (c9Cfg.minFilter.getD LinearMipmapLinearFilter) ∉
            [LinearFilter, LinearMipMapNearestFilter, LinearMipmapLinearFilter,
             NearestMipMapLinearFilter, NearestMipMapNearestFilter] then 1 else 0) +
         (if (c9Cfg.magFilter.getD LinearFilter) ∉ [LinearFilter, NearestFilter] then 1 else 0) +
         (if (c9Cfg.wrapS.getD RepeatWrapping) ∉
            [ClampToEdgeWrapping, MirroredRepeatWrapping, RepeatWrapping] then 1 else 0) +
         (if (c9Cfg.wrapT.getD RepeatWrapping) ∉
            [ClampToEdgeWrapping, MirroredRepeatWrapping, RepeatWrapping] then 1 else 0) +
         (if (c9Cfg.wrapR.getD RepeatWrapping) ∉
            [ClampToEdgeWrapping, MirroredRepeatWrapping, RepeatWrapping] then 1 else 0) +
         (if (c9Cfg.encoding.getD LinearEncoding) ∉ [LinearEncoding, sRGBEncoding] then 1 else 0))) :=
  ⟨rfl, by decide, Or.inr (Or.inl rfl),
    createTexture_invalid_options_fallback initialModel c9Cfg "t1" rfl (by decide)
      (Or.inr (Or.inl rfl))⟩

/-- C7: a `createEntity` call whose `meshIds` contains unknown ids or meshes
already claimed by another entity skips each bad reference with one logged
error instead of aborting: the entity is still created, it holds exactly the
valid unclaimed meshes, every mesh it holds was unclaimed before the call
(each mesh belongs to at most one entity), and those meshes now carry the new
entity as parent. -/
theorem createEntity_skips_bad_refs (s : ModelState) (cfg : EntityCfg) (eid : String)
    (ids : List String) (heid : cfg.id = some eid)
    (hcol : s.sceneComponents.contains eid = false)
    (hm : cfg.meshIds = some ids) :
    ∃ node : Node, (createEntity s cfg).2 = some node ∧
      node.id = eid ∧
      node.meshIds = ids.filter (meshCollectible s) ∧
      alookup (createEntity s cfg).1.nodes eid = some node ∧
      (∀ mid ∈ node.meshIds, ∃ m : Mesh, alookup s.meshes mid = some m ∧ m.parent = none) ∧
      (∀ mid ∈ node.meshIds,
        (alookup (createEntity s cfg).1.meshes mid).map Mesh.parent = some (some eid)) ∧
      (createEntity s cfg).1.errors.length =
        s.errors.length + (ids.length - node.meshIds.length) ∧
      (createEntity s cfg).1.numEntities = s.numEntities + 1 := by
  obtain ⟨msgs, hcm, hlen⟩ := collectMeshes_spec s ids
  have hvalid : ∀ mid ∈ ids.filter (meshCollectible s),
      ∃ m : Mesh, alookup s.meshes mid = some m ∧ m.parent = none := by
    intro mid hmid
    have hpred := (List.mem_filter.mp hmid).2
    unfold meshCollectible at hpred
    rcases hl : alookup s.meshes mid with _ | m
    · rw [hl] at hpred; simp at hpred
    · rw [hl] at hpred
      simp only [Option.isNone_iff_eq_none] at hpred
      exact ⟨m, rfl, hpred⟩
  unfold createEntity
  rw [heid]
  simp only [hcol, Bool.false_eq_true, if_false, hm]
  rw [hcm]
  dsimp only
  refine ⟨_, rfl, rfl, rfl, alookup_aset_self _ _ _, hvalid, ?_, ?_, rfl⟩
  · intro mid hmid
    obtain ⟨m, hml, _⟩ := hvalid mid hmid
    have hmap := alookup_map_pair
      (fun k (v : Mesh) =>
        if (List.filter (meshCollectible s) ids).contains k then { v with parent := some eid }
        else v)
      s.meshes mid
    rw [addEntityCounters_meshes, hmap, hml]
    have hmid2 : mid ∈ List.filter (meshCollectible s) ids := hmid
    rw [List.mem_filter] at hmid2
    simp [hmid2.1, hmid2.2]
  · rw [addEntityCounters_errors]
    simp only [List.length_append]
    omega

/-- A registered, unclaimed mesh used by the C6/C7 witnesses. -/
def c7MeshA : Mesh :=
  { id := "mA", pickId := 0, pickColor := mkPickColor 0, parent := none,
    layerLid := some 0, portionId := some 0, origin := ⟨0, 0, 0⟩,
    aabb := ⟨0, 0, 0, 1, 1, 1⟩, numTriangles := 1 }

/-- A mesh already claimed by another entity. -/
def c7MeshB : Mesh :=
  { c7MeshA with id := "mB", parent := some "eOld", aabb := ⟨-1, 0, 0, 2, 1, 1⟩ }

/-- A model holding one unclaimed and one claimed mesh. -/
def c7State : ModelState :=
  { initialModel with meshes := [("mA", c7MeshA), ("mB", c7MeshB)] }

/-- An entity request naming a valid mesh, a claimed mesh and an unknown
id. -/
def c7Cfg : EntityCfg :=
  { id := some "e1", meshIds := some ["mA", "mB", "missing"] }

/-- C7 witness: on `c7State`, the entity is still created, holding exactly
the one valid unclaimed mesh, with one error logged per bad reference. -/
theorem createEntity_skips_bad_refs_witness :
    c7Cfg.id = some "e1" ∧
    c7State.sceneComponents.contains "e1" = false ∧
    c7Cfg.meshIds = some ["mA", "mB", "missing"] ∧
    (∃ node : Node, (createEntity c7State c7Cfg).2 = some node ∧
      node.id = "e1" ∧
      node.meshIds = (["mA", "mB", "missing"] : List String).filter (meshCollectible c7State) ∧
      alookup (createEntity c7State c7Cfg).1.nodes "e1" = some node ∧
      (∀ mid ∈ node.meshIds,
        ∃ m : Mesh, alookup c7State.meshes mid = some m ∧ m.parent = none) ∧
      (∀ mid ∈ node.meshIds,
        (alookup (createEntity c7State c7Cfg).1.meshes mid).map Mesh.parent = some (some "e1")) ∧
      (createEntity c7State c7Cfg).1.errors.length =
        c7State.errors.length + ((["mA", "mB", "missing"] : List String).length - node.meshIds.length) ∧
      (createEntity c7State c7Cfg).1.numEntities = c7State.numEntities + 1) :=
  ⟨rfl, by decide, rfl,
    createEntity_skips_bad_refs c7State c7Cfg "e1" ["mA", "mB", "missing"] rfl (by decide) rfl⟩

/-- C6: the AABB of an entity created by `createEntity` equals the union
(min/max fold) of its constituent meshes' AABBs, and when the entity has
exactly one mesh its AABB is that mesh's AABB itself, reused directly by
the one-mesh branch with no union computation. -/
theorem createEntity_aabb_union (s : ModelState) (cfg : EntityCfg) (eid : String)
    (ids : List String) (heid : cfg.id = some eid)
    (hcol : s.sceneComponents.contains eid = false)
    (hm : cfg.meshIds = some ids)
    (hne : ids.filter (meshCollectible s) ≠ [])
    (hrange : ∀ mid m, alookup s.meshes mid = some m → aabbInRange m.aabb) :
    ∃ node : Node, (createEntity s cfg).2 = some node ∧
      node.meshIds = ids.filter (meshCollectible s) ∧
      node.aabb = (node.meshIds.map (fun mid =>
        match alookup s.meshes mid with
        | some m => m.aabb
        | none => collapseAABB3)).foldl expandAABB3 collapseAABB3 ∧
      (∀ m : Mesh, node.meshIds.length = 1 →
        alookup s.meshes (node.meshIds.headD "") = some m → node.aabb = m.aabb) := by
  obtain ⟨msgs, hcm, hlen⟩ := collectMeshes_spec s ids
  have hl : ∀ mid ∈ ids.filter (meshCollectible s), (alookup s.meshes mid).isSome = true := by
    intro mid hmid
    have hpred := (List.mem_filter.mp hmid).2
    unfold meshCollectible at hpred
    rcases hsome : alookup s.meshes mid with _ | m
    · rw [hsome] at hpred; simp at hpred
    · simp
  unfold createEntity
  rw [heid]
  simp only [hcol, Bool.false_eq_true, if_false, hm]
  rw [hcm]
  dsimp only
  refine ⟨_, rfl, rfl, ?_, ?_⟩
  · show entityAABB { s with errors := s.errors ++ msgs } (ids.filter (meshCollectible s)) = _
    rw [entityAABB_errors_irrelevant]
    exact entityAABB_eq_union s (ids.filter (meshCollectible s)) hl
      (fun mid m hsome => hrange mid m hsome) hne
  · intro m hlen1 hsome
    show entityAABB { s with errors := s.errors ++ msgs } (ids.filter (meshCollectible s)) = m.aabb
    rw [entityAABB_errors_irrelevant]
    unfold entityAABB
    rw [if_pos hlen1]
    rw [show alookup s.meshes ((ids.filter (meshCollectible s)).headD "") = some m from hsome]

/-- C6 witness: a two-mesh entity whose box is the union, on the same model
as the C7 witness but with both meshes unclaimed. -/
theorem createEntity_aabb_union_witness :
    ({ id := some "e2", meshIds := some ["mA"] } : EntityCfg).id = some "e2" ∧
    c7State.sceneComponents.contains "e2" = false ∧
    (["mA"] : List String).filter (meshCollectible c7State) ≠ [] ∧
    (∃ node : Node,
      (createEntity c7State { id := some "e2", meshIds := some ["mA"] }).2 = some node ∧
      node.meshIds = (["mA"] : List String).filter (meshCollectible c7State) ∧
      node.aabb = (node.meshIds.map (fun mid =>
        match alookup c7State.meshes mid with
        | some m => m.aabb
        | none => collapseAABB3)).foldl expandAABB3 collapseAABB3 ∧
      (∀ m : Mesh, node.meshIds.length = 1 →
        alookup c7State.meshes (node.meshIds.headD "") = some m → node.aabb = m.aabb)) :=
  ⟨rfl, by decide, by decide,
    createEntity_aabb_union c7State { id := some "e2", meshIds := some ["mA"] } "e2" ["mA"]
      rfl (by decide) rfl (by decide)
      (by
        intro mid m hsome
        have hmem := mem_of_alookup_eq_some hsome
        simp only [c7State, initialModel, List.mem_cons, List.not_mem_nil, or_false,
          Prod.mk.injEq] at hmem
        rcases hmem with ⟨_, rfl⟩ | ⟨_, rfl⟩ <;> decide)⟩

/-- C2: a `createMesh` call (without `geometryId`) whose config shares the
current batching-compatibility tuple — same effective origin,
positions-decode matrix, UV-decode matrix, texture-set id and
normals-presence — and whose primitive/attribute-shape key has a current
batching layer, places its portion in that same layer when the layer's
vertex/index budget admits it (no new layer is created and the key still
maps to the same layer); when `canCreatePortion` reports the budget exceeded,
the current layer is finalized and a fresh batching layer is started, which
receives this portion and becomes the current layer for the key. -/
theorem createMesh_batching_layer_routing
    (s : ModelState) (cfg : MeshCfg) (mid prim : String)
    (lid : Nat) (L : Layer) (ps : List Int) (idx : List Nat)
    (hid : cfg.id = some mid)
    (hfresh : alookup s.meshes mid = none)
    (hgeom : cfg.geometryId = none)
    (hts0 : s.textureSets.contains (cfg.textureSetId.getD defaultTextureSetId) = true)
    (hprim : cfg.primitive = some prim)
    (hfam : prim = "triangles" ∨ prim = "solid" ∨ prim = "surface")
    (hpos : cfg.positions = some ps)
    (hpc : cfg.positionsCompressed = none)
    (huv : cfg.uvCompressed = none)
    (hidx : cfg.indices = some idx)
    (horigin : s.lastOrigin = some (batchingOriginPositions s cfg).1)
    (hpdm : cfg.positionsDecodeMatrix = none ∨
      s.lastPositionsDecodeMatrix = cfg.positionsDecodeMatrix)
    (huvm : cfg.uvDecodeMatrix = none ∨ s.lastUVDecodeMatrix = cfg.uvDecodeMatrix)
    (hts : cfg.textureSetId = none ∨ s.lastTextureSetId = cfg.textureSetId)
    (hnorm : s.lastNormals = none ∨ s.lastNormals = some (nonEmptyOpt cfg.normals))
    (hcur : alookup s.currentBatchingLayers (primKeyOf prim cfg) = some lid)
    (hL : layerAt s lid = some L)
    (hfreshLid : ∀ L2 ∈ s.layerList, L2.lid < s.nextLid) :
    (L.canCreatePortion ps.length idx.length = true →
      (createMesh s cfg).layerList.length = s.layerList.length ∧
      alookup (createMesh s cfg).currentBatchingLayers (primKeyOf prim cfg) = some lid ∧
      (alookup (createMesh s cfg).meshes mid).map Mesh.layerLid = some (some lid) ∧
      (layerAt (createMesh s cfg) lid).map Layer.numPortions = some (L.numPortions + 1)) ∧
    (L.canCreatePortion ps.length idx.length = false →
      (createMesh s cfg).layerList.length = s.layerList.length + 1 ∧
      (layerAt (createMesh s cfg) lid).map Layer.finalized = some true ∧
      alookup (createMesh s cfg).currentBatchingLayers (primKeyOf prim cfg) = some s.nextLid ∧
      (alookup (createMesh s cfg).meshes mid).map Mesh.layerLid = some (some s.nextLid)) := by
  obtain ⟨ps2, hps2, hlen2⟩ := batchingOriginPositions_some s cfg ps hpos
  have hLfind : s.layerList.find? (fun L2 => L2.lid = lid) = some L := hL
  have hLlid : L.lid = lid := by
    have := List.find?_some hLfind
    exact of_decide_eq_true this
  have hlidlt : lid < s.nextLid :=
    hLlid ▸ hfreshLid L (List.mem_of_find?_eq_some hLfind)
  have e1 : needNewForOrigin s.lastOrigin (batchingOriginPositions s cfg).1 = false := by
    rw [horigin]
    exact needNewForOrigin_same _
  have e2 : needNewForMatrix s.lastPositionsDecodeMatrix cfg.positionsDecodeMatrix = false := by
    rcases hpdm with h | h
    · rw [h]
      rfl
    · rcases hp : cfg.positionsDecodeMatrix with _ | m
      · rfl
      · rw [hp] at h
        rw [h]
        exact needNewForMatrix_same m
  have e3 : needNewForMatrix s.lastUVDecodeMatrix cfg.uvDecodeMatrix = false := by
    rcases huvm with h | h
    · rw [h]
      rfl
    · rcases hp : cfg.uvDecodeMatrix with _ | m
      · rfl
      · rw [hp] at h
        rw [h]
        exact needNewForMatrix_same m
  have e4 : needNewForTextureSet s.lastTextureSetId cfg.textureSetId = false := by
    rcases hts with h | h
    · rw [h]
      rfl
    · rcases hp : cfg.textureSetId with _ | t
      · rfl
      · rw [hp] at h
        rw [h]
        exact needNewForTextureSet_same t
  have e5 : normalsFlushNeeded s.lastNormals (nonEmptyOpt cfg.normals) = false :=
    normalsFlushNeeded_same _ _ hnorm
  rcases hfam with rfl | rfl | rfl <;>
  · simp only [createMesh, hid, hfresh, hgeom, hts0, hprim, hpos, hpc, huv, hidx,
      Option.isSome_none, Option.isSome_some, Option.isNone_none, Option.isNone_some,
      Option.bind_eq_bind, Option.none_bind, Option.getD_some, Bool.false_eq_true,
      Bool.not_true, if_false, if_true, false_and, and_false, and_true, true_and,
      not_true, not_false_iff, createMeshBatching]
    simp only [batchingOriginPositions_nextPickId, e1, e2, e3, e4, e5, Bool.or_self,
      Bool.false_eq_true, if_false, hps2, Option.getD_some, hlen2]
    simp only [ne_eq, String.reduceEq, not_true, not_false_eq_true, and_true, true_and,
      and_false, false_and, true_or, or_true, false_or, or_false, or_self, if_true, if_false,
      not_false_iff, routeBatchingLayer, layerAt, hcur, hLfind]
    have hLflid : L.finalize.lid = lid := (finalize_lid L).trans hLlid
    have hlids2 : ∀ x ∈ setLayerList s.layerList lid L.finalize, x.lid < s.nextLid := by
      intro x hx
      rcases mem_setLayerList hx with rfl | hx2
      · rw [hLflid]
        exact hlidlt
      · exact hfreshLid x hx2
    constructor
    · intro hcan
      simp only [hcan, if_true]
      rw [hLfind]
      rw [layerAt_set_found s.layerList lid L (L.createPortionCounts ps.length idx.length)
        hLfind ((createPortionCounts_lid L _ _).trans hLlid)]
      refine ⟨by simp [setLayerList_length], hcur, ?_, rfl⟩
      rw [show ∀ m2 : Mesh, (alookup (aset s.meshes mid m2) mid).map Mesh.layerLid =
          some m2.layerLid from fun m2 => by rw [alookup_aset_self]; rfl]
    · intro hcan
      simp only [hcan, Bool.false_eq_true, if_false, newBatchingLayer]
      rw [find_append_new (setLayerList s.layerList lid L.finalize) s.nextLid hlids2 rfl]
      refine ⟨?_, ?_, ?_, ?_⟩
      · simp [setLayerList_length, List.length_append]
      · rw [find_setLayerList_ne _ lid s.nextLid _ (Nat.ne_of_lt hlidlt) rfl]
        rw [List.find?_append]
        rw [layerAt_set_found s.layerList lid L L.finalize hLfind hLflid]
        simp [finalize_finalized]
      · rw [alookup_aset_self]
      · rw [show ∀ m2 : Mesh, (alookup (aset s.meshes mid m2) mid).map Mesh.layerLid =
          some m2.layerLid from fun m2 => by rw [alookup_aset_self]; rfl]

/-- The mesh config used by the C2 witness: one small triangle, no decode
matrices, default texture set. -/
def c2Cfg : MeshCfg :=
  { id := some "m2", primitive := some "triangles",
    positions := some [0, 0, 0, 1, 0, 0, 0, 1, 0], indices := some [0, 1, 2] }

/-- The current batching layer of the C2 witness state: one portion already
staged. -/
def c2Layer : Layer :=
  { lid := 0, kind := .trianglesBatching, primitive := "triangles",
    origin := ⟨0, 0, 0⟩, positionsDecodeMatrix := none, uvDecodeMatrix := none,
    textureSetId := some defaultTextureSetId, solid := false, autoNormals := true,
    maxGeometryBatchSize := none, posOccupancy := 9, idxOccupancy := 3,
    numPortions := 1, geomNumIndices := 0, finalized := false, uploadCount := 0,
    sortId := layerSortId .trianglesBatching false, layerIndex := 0 }

/-- A model mid-build: `c2Layer` is the current batching layer for the
triangles key and the `_last*` state matches `c2Cfg`. -/
def c2State : ModelState :=
  { initialModel with
    layerList := [c2Layer]
    currentBatchingLayers := [(primKeyOf "triangles" c2Cfg, 0)]
    lastOrigin := some ⟨0, 0, 0⟩
    lastNormals := some false
    nextLid := 1
    numPortions := 1 }

set_option maxRecDepth 8192 in
/-- C2 witness: on `c2State`, a same-tuple `createMesh` call routes through
the layer-routing theorem (the budget admits the portion, so it lands in the
existing layer). -/
theorem createMesh_batching_layer_routing_witness :
    c2Cfg.id = some "m2" ∧
    alookup c2State.meshes "m2" = none ∧
    c2State.lastOrigin = some (batchingOriginPositions c2State c2Cfg).1 ∧
    alookup c2State.currentBatchingLayers (primKeyOf "triangles" c2Cfg) = some 0 ∧
    layerAt c2State 0 = some c2Layer ∧
    ((c2Layer.canCreatePortion
        ([0, 0, 0, 1, 0, 0, 0, 1, 0] : List Int).length ([0, 1, 2] : List Nat).length = true →
      (createMesh c2State c2Cfg).layerList.length = c2State.layerList.length ∧
      alookup (createMesh c2State c2Cfg).currentBatchingLayers
        (primKeyOf "triangles" c2Cfg) = some 0 ∧
      (alookup (createMesh c2State c2Cfg).meshes "m2").map Mesh.layerLid = some (some 0) ∧
      (layerAt (createMesh c2State c2Cfg) 0).map Layer.numPortions =
        some (c2Layer.numPortions + 1)) ∧
     (c2Layer.canCreatePortion
        ([0, 0, 0, 1, 0, 0, 0, 1, 0] : List Int).length ([0, 1, 2] : List Nat).length = false →
      (createMesh c2State c2Cfg).layerList.length = c2State.layerList.length + 1 ∧
      (layerAt (createMesh c2State c2Cfg) 0).map Layer.finalized = some true ∧
      alookup (createMesh c2State c2Cfg).currentBatchingLayers
        (primKeyOf "triangles" c2Cfg) = some c2State.nextLid ∧
      (alookup (createMesh c2State c2Cfg).meshes "m2").map Mesh.layerLid =
        some (some c2State.nextLid))) :=
  ⟨rfl, rfl, by decide, by decide, by decide,
    createMesh_batching_layer_routing c2State c2Cfg "m2" "triangles" 0 c2Layer
      [0, 0, 0, 1, 0, 0, 0, 1, 0] [0, 1, 2]
      rfl rfl rfl (by decide) rfl (Or.inl rfl) rfl rfl rfl rfl
      (by decide) (Or.inl rfl) (Or.inl rfl) (Or.inl rfl) (Or.inr (by decide))
      (by decide) (by decide) (by decide)⟩

/-- C3: calling finalize() a second time is a no-op: the model state after
finalize(finalize(s)) equals the state after finalize(s), so no layer is
re-finalized (re-uploaded) and the node list, layer list, counters and
render flags are all unchanged by the repeated call. -/
theorem finalize_idempotent (s : ModelState) : finalize (finalize s) = finalize s := by
  rcases hdes : s.destroyed with _ | _
  · unfold finalize
    simp only [hdes, Bool.false_eq_true, if_false]
    have hfin : ∀ x ∈ reindexLayers (List.insertionSort layerLE
        (List.map
          (fun L => if (List.map (fun p => p.2) s.currentBatchingLayers).contains L.lid = true
            then L.finalize else L)
          (List.map
            (fun L => if (List.map (fun p => p.2) s.instancingLayers).contains L.lid = true
              then L.finalize else L)
            s.layerList))),
        (List.map (fun p => p.2) s.instancingLayers).contains x.lid = true →
          x.finalized = true := by
      intro x hx hc
      obtain ⟨z, hz, hlid, hfinz, _⟩ := mem_reindexLayersFrom hx
      rw [(List.perm_insertionSort layerLE _).mem_iff] at hz
      obtain ⟨w1, hw1, hzw1⟩ := List.mem_map.mp hz
      obtain ⟨w, hwmem, hw1w⟩ := List.mem_map.mp hw1
      have hzlid : z.lid = w.lid := by
        rw [← hzw1, ← hw1w]
        rw [if_finalize_lid, if_finalize_lid]
      have hcw : (List.map (fun p => p.2) s.instancingLayers).contains w.lid = true := by
        rw [← hzlid, ← hlid]
        exact hc
      have hzfin : z.finalized = true := by
        rw [← hzw1, ← hw1w]
        rw [if_pos hcw]
        exact if_finalize_finalized_of _ _ (finalize_finalized w)
      rw [hfinz]
      exact hzfin
    have hsorted : List.Sorted layerLE (reindexLayers (List.insertionSort layerLE
        (List.map
          (fun L => if (List.map (fun p => p.2) s.currentBatchingLayers).contains L.lid = true
            then L.finalize else L)
          (List.map
            (fun L => if (List.map (fun p => p.2) s.instancingLayers).contains L.lid = true
              then L.finalize else L)
            s.layerList)))) :=
      sorted_reindexLayersFrom 0 _ (List.sorted_insertionSort layerLE _)
    have hmap0 : List.map
        (fun L => if (List.map (fun p => p.2) s.instancingLayers).contains L.lid = true
          then L.finalize else L)
        (reindexLayers (List.insertionSort layerLE
          (List.map
            (fun L => if (List.map (fun p => p.2) s.currentBatchingLayers).contains L.lid = true
              then L.finalize else L)
            (List.map
              (fun L => if (List.map (fun p => p.2) s.instancingLayers).contains L.lid = true
                then L.finalize else L)
              s.layerList)))) =
        reindexLayers (List.insertionSort layerLE
          (List.map
            (fun L => if (List.map (fun p => p.2) s.currentBatchingLayers).contains L.lid = true
              then L.finalize else L)
            (List.map
              (fun L => if (List.map (fun p => p.2) s.instancingLayers).contains L.lid = true
                then L.finalize else L)
              s.layerList))) := by
      refine (List.map_congr_left ?_).trans (List.map_id _)
      intro a ha
      by_cases c1 : (List.map (fun p => p.2) s.instancingLayers).contains a.lid = true
      · simp only [c1, if_true, id]
        exact finalize_of_finalized a (hfin a ha c1)
      · rw [if_neg c1]
        rfl
    simp only [ModelState.mk.injEq, eq_self_iff_true, and_true, true_and]
    constructor
    · rw [List.map_map]
      exact List.map_congr_left (fun a _ => rfl)
    · rw [show (fun L => if (List.map (fun p => p.2) ([] : List (PrimKey × Nat))).contains L.lid = true
          then L.finalize else L) = (fun L : Layer => L) from by
        funext L
        simp]
      rw [List.map_id']
      rw [hmap0]
      rw [List.Sorted.insertionSort_eq hsorted]
      exact reindexLayersFrom_idem 0 _
  · simp [finalize, hdes]

end XeokitVBO
